import Mathlib

/-!
Verification of the ComicVine imprint module (`cvimprints.py`).

The module has two parts:
* `find_parent_publisher`: a pure lookup that strips its input and resolves
  known imprint names to their parent publisher via a static table;
* a reconciliation script (the `__main__` block) that scrapes the ComicVine
  publisher listing page by page, accumulates the scraped names until a page
  introduces nothing new, and then diffs the scraped set against the two
  static tables, printing a report.

This file gives a shallow embedding of both parts and proves the claimed
properties about them.
-/

set_option maxRecDepth 40000

/-! ## Python string stripping

`str.strip()` with no argument removes leading and trailing whitespace,
where whitespace is space, tab, linefeed, return, vertical tab, formfeed.
-/

/-- The characters Python's default `str.strip()` (and `\s` in a Python 2
`str` regex) treats as whitespace. -/
def isPySpace (c : Char) : Bool :=
  c == ' ' || c == '\t' || c == '\n' || c == '\r' || c == '\x0b' || c == '\x0c'

/-- Remove leading and trailing whitespace from a character list. -/
def stripChars (l : List Char) : List Char :=
  (((l.dropWhile isPySpace).reverse).dropWhile isPySpace).reverse

/-- Python's `s.strip()` on a string. -/
def pstrip (s : String) : String := String.mk (stripChars s.data)

/-! ## The static tables -/

def pubMarvel : String := "Marvel"
def pubDc : String := "DC Comics"
def pubDarkhorse : String := "Dark Horse Comics"
def pubMalibu : String := "Malibu"
def pubAmryl : String := "Amryl Entertainment"
def pubAvatar : String := "Avatar Press"
def pubWizard : String := "Wizard"
def pubTokyopop : String := "Tokyopop"
def pubDynamite : String := "Dynamite Entertainment"
def pubImage : String := "Image"
def pubHeroic : String := "Heroic Publishing"
def pubPenguin : String := "Penguin Group"
def pubHakusensha : String := "Hakusensha"
def pubApe : String := "Ape Entertainment"
def pubNbm : String := "Nbm"
def pubRadio : String := "Radio Comix"
def pubSlg : String := "Slg Publishing"
def pubTokuma : String := "Tokuma Shoten"

/-- The mapping of imprint names to their parent publisher names
(translated from the module-level dict in the source, in source order). -/
def imprint_map : List (String × String) := [
  ("2000AD", pubDc),
  ("Adventure", pubMalibu),
  ("America\u0027s Best Comics", pubDc),
  ("Wildstorm", pubDc),
  ("Antimatter", pubAmryl),
  ("Apparat", pubAvatar),
  ("Black Bull", pubWizard),
  ("Blu Manga", pubTokyopop),
  ("Chaos! Comics", pubDynamite),
  ("Cliffhanger", pubDc),
  ("CMX", pubDc),
  ("Dark Horse Manga", pubDarkhorse),
  ("Desperado Publishing", pubImage),
  ("Epic", pubMarvel),
  ("Focus", pubDc),
  ("Helix", pubDc),
  ("Hero Comics", pubHeroic),
  ("Homage comics", pubDc),
  ("Hudson Street Press", pubPenguin),
  ("Icon Comics", pubMarvel),
  ("Impact", pubDc),
  ("Jets Comics", pubHakusensha),
  ("KiZoic", pubApe),
  ("Marvel Digital Comics Unlimited", pubMarvel),
  ("Marvel Knights", pubMarvel),
  ("Marvel Music", pubMarvel),
  ("Max", pubMarvel),
  ("Milestone", pubDc),
  ("Minx", pubDc),
  ("Papercutz", pubNbm),
  ("Paradox Press", pubDc),
  ("Piranha Press", pubDc),
  ("Razorline", pubMarvel),
  ("ShadowLine", pubImage),
  ("Sin Factory Comix", pubRadio),
  ("Slave Labor", pubSlg),
  ("Soleil", pubMarvel),
  ("Tangent Comics", pubDc),
  ("Tokuma Comics", pubTokuma),
  ("Ultraverse", pubMalibu),
  ("Vertigo", pubDc),
  ("Zuda Comics", pubDc)
]

/-- The set of all non-imprint publishers known to the module
(translated from the module-level frozenset in the source, in source order). -/
def other_publishers : List String := [
  pubMarvel,
  pubDc,
  pubDarkhorse,
  pubMalibu,
  pubAmryl,
  pubAvatar,
  pubWizard,
  pubTokyopop,
  pubDynamite,
  pubImage,
  pubHeroic,
  pubPenguin,
  pubHakusensha,
  pubApe,
  pubNbm,
  pubRadio,
  pubSlg,
  pubTokuma,
  "01Comics.com",
  "12 Gates Productions",
  "12-Gauge Comics",
  "1st Amendment Publishing",
  "2-D Graphics",
  "20000 Leagues",
  "215 INK",
  "21st Century Sandshark Studios",
  "24 Hour Cynic",
  "2Werk",
  "3 Finger Prints",
  "3-D Zone",
  "3-M",
  "360ep",
  "3DO Comics",
  "3H Productions",
  "3ntini Editore",
  "4 Winds",
  "5th Panel Comics",
  "801 Media",
  "803 Studios",
  "88 MPH",
  "8th Day Entertainment",
  "9th Circle Studios",
  "A",
  "A D Vision",
  "A Division Of Malibu Graphics",
  "A List Comics",
  "A Silent Comics Inc",
  "A Wave Blue World",
  "A-Plus",
  "A.M. Works",
  "A.R.C.",
  "A10 Comics",
  "AAA Milwaukee",
  "AAA Pop",
  "AC",
  "ADV Manga",
  "AKA Comics",
  "ANIA",
  "APComics",
  "AS Film Inform",
  "Aardvark",
  "Aardwolf Productions",
  "Aazurn",
  "Abaculus",
  "Abacus Press",
  "Abbeville Press",
  "Aberration Press",
  "Abiogenesis Press",
  "Ablaze Media",
  "Abnormal Fun",
  "About Comics",
  "Abril",
  "Absence Of Ink",
  "Absolute Blue Graphics",
  "Absolute Tyrant",
  "Abstract Studio",
  "Ac Collector Classics",
  "Academy Comics Ltd",
  "Acclaim",
  "Ace Comics",
  "Ace Magazines",
  "Ace Publications Inc",
  "Acetylene",
  "Acg",
  "Acid Rain Studios",
  "Acme",
  "Across The Pond Studios",
  "Action Folksinger",
  "Action Planet Comics",
  "Active Images",
  "Active Synapse",
  "Adhesive Comics",
  "Adhouse Books",
  "Adversary Comix",
  "Aeon",
  "Aerosol Press",
  "After Hours Press",
  "Afterburn Comics",
  "Aftershock Comics",
  "Age Of Heroes",
  "AiT/Planet Lar",
  "Airbrush",
  "Aircel Publishing",
  "Airship Entertainment",
  "Aja Blu Comix",
  "Ajax",
  "Ajax-Farrell",
  "Akita Shoten",
  "Al Fago Magazines",
  "Alamat Comics",
  "Albert Bonniers F",
  "Albin Michel",
  "Alchemy Studios",
  "Alchemy Texts",
  "Alfabeta",
  "Alias Enterprises",
  "Aliwan Comics",
  "All Thumbs Press",
  "All-Negro Comics",
  "Allers",
  "Allers Forlag",
  "Allied Comics",
  "Almighty Publishing",
  "Alpha Productions",
  "Alpha/Streck Enterprises",
  "Alpine Underground",
  "Alterna Comics",
  "Alternative Press",
  "Alvglans",
  "Amalgam Comics",
  "Amalgamated Press",
  "Amazing Aaron Productions",
  "Amazing Comics",
  "Amazing Creations Ink",
  "Ambrosia Publishing",
  "American Cancer Society",
  "American Comics Group",
  "American Friends Service Committee",
  "American Mule",
  "American Red Cross",
  "American Visuals Corporation",
  "Americanime",
  "Americomics",
  "Amerotica",
  "Anarchy Studios",
  "Andrews And Mcmeel",
  "Angel Entertainment",
  "Angel Gate Press",
  "Angry Viking Press",
  "Anime Works",
  "Another Rainbow",
  "Antarctic Press",
  "Anti-Ballistic Pixelations",
  "Anubis Press",
  "Anvil",
  "Apocalypse",
  "Apple",
  "Application Security, Inc.",
  "Approbation Comics",
  "Aragon",
  "Arcade Comics",
  "Arcana Studio",
  "Archaia Studios Press",
  "Archangel Studios",
  "Archie",
  "Archie Adventure Series",
  "Ardden Entertainment",
  "Argo Publications",
  "Aria Press",
  "Aries Publications",
  "Arleigh",
  "Armada",
  "Armageddon Press Inc.",
  "Arnoldo Mondadori Editore",
  "Arrache Coeur",
  "Arrow",
  "Arsenic Lullaby Publishing",
  "Askild",
  "Aspen MLT",
  "Asplunds",
  "Astonish Comics",
  "Astorina",
  "Astronaut Ink",
  "Asuka Comics",
  "Asylum Press",
  "Atari",
  "Atlantic F",
  "Atlantis Studios",
  "Atlas",
  "Atlas Comics",
  "Atomeka Press",
  "Atomic Basement",
  "August House",
  "Austintations",
  "Avalon Communications",
  "Aviation Comics",
  "Avon",
  "Awesome",
  "Azteca Productions",
  "B",
  "B & H Publishing Group",
  "B&D Pleasures",
  "BBC Books",
  "BBC Magazines",
  "BC",
  "BKR Comics",
  "BSV - Williams",
  "Baby Tattoo Books",
  "Bad Dog Books",
  "Bad Habit Books",
  "Bad Karma Productions",
  "Bad Press Ltd",
  "Badroach Publications",
  "Bagheera",
  "Bailey Publishing Co",
  "Bakh",
  "Bald Guy Studios",
  "Baldini Castoldi Dalai Editore",
  "Ball Publishing",
  "Ballantine Books",
  "Bam",
  "Banana Tales Press",
  "Bandai Entertainment",
  "Bang! Entertainment",
  "Bantam Books",
  "Barbour Christian Comics",
  "Basement Comics",
  "Bastei Verlag",
  "Battlebooks Incorporated",
  "Baychild Productions",
  "Beanworld Press",
  "Beckett",
  "Belif",
  "Bell Features",
  "Berghs",
  "Berkley Books",
  "Berserker Comics",
  "Best Destiny",
  "Best Friends Publication",
  "Beta 3",
  "Betel",
  "Beyond Time Comic",
  "Big Balloon",
  "Big Bang Comics",
  "Big City Comics",
  "Big Dog Ink",
  "Big Head Press",
  "Big Shot Comics",
  "Big Umbrella",
  "Bioroid Studios",
  "Bishop Press",
  "Black Boar Press",
  "Black Cat Comics",
  "Black Coat Comics",
  "Black Diamond Effect Inc.",
  "Black Eye",
  "Black Library",
  "Black Rock Design",
  "Black ball Comics",
  "Blackline Studios",
  "Blacklist Studios",
  "Blackmore",
  "Blackout",
  "Blackthorne",
  "Bladkompaniet As",
  "Blind Ferret",
  "Blind Wolf",
  "Bliss on Tap Publishing",
  "Bloodfire Studios",
  "Bloody Mary Comics",
  "Blue Comet Press",
  "Blue King Studios",
  "Bluewater Productions",
  "Bob Ross",
  "Bodog",
  "Boemerang",
  "Bokf",
  "Bokfabriken",
  "Bokomotiv",
  "Bompiani",
  "Bones",
  "Boneyard Press",
  "Bongo",
  "Bonnier Carlsen",
  "Bonniers Juniorf",
  "Boom! Studios",
  "Boundless Comics",
  "Brain Scan Studios",
  "Brainstorm",
  "Brave New Words",
  "Brett\u0027s Comic Pile Publishing",
  "Brick Computer Science Institute",
  "Broadsword Comics",
  "Broadway",
  "Broken Halos",
  "Broken Tree Comics",
  "Broken Voice Comics",
  "Brown Shoe Company",
  "Bruce Hershenson",
  "Bubblehead Publishing",
  "Budget Books",
  "Buffalo Books",
  "Bulletproof Comics",
  "Burlyman Entertainment",
  "Buymetoys.com",
  "C.A.M. Press",
  "C.C.A.S. Publication",
  "C.M.I. Corporativo Mexicano de Impresión",
  "CARNIVAL COMICS",
  "CBG",
  "CEA Casa Editrice Astoria",
  "CFW Enterprises",
  "Cackling Imp Press",
  "Cafe Digital",
  "Cahaba Producttions",
  "Caliber Comics",
  "California Comics",
  "Cambridge House Publishers",
  "Candle Light Press",
  "Candlewick Press",
  "Canew Ideas",
  "Capcom",
  "Capital Comics",
  "Capitol Stories",
  "Capstone Press",
  "Captain Clockwork",
  "Caption Comics",
  "Carabosse Comics",
  "Carbon-Based Comics",
  "Carlsen Comics",
  "Carlton Publishing",
  "Carnal Comics",
  "Carnopolis",
  "Carol Ediciones S.A. de C.V.",
  "Cartoon Art",
  "Cartoon Books",
  "Casa Editrice Dardo",
  "Casa Editrice Universo",
  "Casterman",
  "Castle Rain",
  "Catalan Communications",
  "Catastrophic Comics",
  "Catwild Publications",
  "Celebrity",
  "Cellar Door Publishing",
  "Centaur",
  "Central Park Media",
  "Century Publications",
  "Cepim",
  "Cge From",
  "Channel M",
  "Chanting Monks Studios",
  "Chaotic Unicorn Press",
  "Charlton",
  "Checker Book Publishing Group",
  "Cherry",
  "Cherry Comics",
  "Chicago Mail Order Comics",
  "Chick Publications",
  "Children",
  "Chronicle Books",
  "Chuang Yi",
  "Cinebooks",
  "Circle Media",
  "Cirkelf",
  "Claypool Comics",
  "Club 408 Graphics",
  "Coffin Comics",
  "Colburn Comics",
  "Colour Comics Pty Ltd",
  "Columbia Comics",
  "Com.X",
  "Comely Comix",
  "Comic Art",
  "Comic Book Legal Defense Fund",
  "Comic Legends Legal Defense Fund",
  "Comic Media",
  "Comic Shop News Inc.",
  "Comico",
  "Comics Interview",
  "Comics Unlimited Inc.",
  "Comicsonair Publications",
  "Commercial Comics",
  "Commercial Signs Of Canada",
  "Committed Comics",
  "Company & Sons",
  "Comunicaciones Graficas Comgraf",
  "Condor Verlag",
  "Coniglio Editore",
  "Conquest Press",
  "Continuity",
  "Continum",
  "Conundrum Press",
  "Corgi",
  "Corriere Della Sera",
  "Crack",
  "Cracked Pepper Productions",
  "Craf Publishers",
  "CrankLeft",
  "Creative Impulse Publishing",
  "Creative One",
  "Creators Edge Press",
  "Creston Publishing Corporation",
  "Critical Mass",
  "Cross Plains Comics",
  "Cross Publications",
  "Crossgen",
  "Crown Publishers",
  "Croydon Publishing",
  "Crusade",
  "Crush Dice Comics Company",
  "Cry For Dawn Productions",
  "Cryptic Press",
  "Crystal Comics",
  "Ctrl Alt Del",
  "Cult Press",
  "Cupples & Leon",
  "Cyberosia Publishing",
  "Cyclone Comics",
  "D. S. Publishing",
  "D.C. Thomson & Co.",
  "DK Publishing",
  "DQU COMICS",
  "DWAP Productions",
  "Dab Enterprises",
  "Dabel Brothers Productions",
  "Dagens Nyheters F",
  "Dagger Enterprises",
  "Daim Press",
  "Dakuwaka Productions",
  "Dancing Elephant Press",
  "Danity Kane Comics",
  "Dare Comics",
  "Dargaud",
  "Dark Elf Designs",
  "Dark Fantasy Production",
  "Dark Ocean Studios",
  "Darkchylde Entertainment",
  "Darkmatter",
  "David Mckay",
  "David Miller Studios",
  "Dead Dog",
  "Dead Numbat Productions",
  "DeadBox Art Studio",
  "Deadline Publications Ltd.",
  "Def Con Comics",
  "Defiant",
  "Del Rey",
  "Dell",
  "Delta Verlag",
  "Deluxe",
  "Deluxe Comics",
  "Dengeki",
  "Dennis F",
  "Der Freibeuter",
  "Determined Productions, Inc.",
  "Devil\u0027s Due",
  "Dial \"C\" for Comics",
  "DigiCube",
  "Digital Manga Distribution",
  "Digital Webbing",
  "Dimension Graphics",
  "Dimestore Productions",
  "Dino Comics",
  "Disney",
  "Diva Graphix",
  "Do Gooder Press",
  "Dobry Komiks",
  "Dolmen Publishing",
  "Dork Storm",
  "Double A Comics",
  "Double Edge Publications",
  "Dover Publications",
  "Dr Master Productions",
  "DrMaster Publications Inc.",
  "Dragon Candy Productions",
  "Dragon Comics",
  "Dragon Lady Press",
  "Dramenon Studios",
  "Drawn",
  "Drawn & Quarterly",
  "Dreamwave Productions",
  "Drumfish Productions",
  "Dupuis",
  "Dynamic Forces",
  "Dynamite",
  "E",
  "Eagle Comics",
  "Eastern Color",
  "Eastern Comics",
  "Ec",
  "Echo 3 Worldwide",
  "Eclectic Comix",
  "Eclipse",
  "Eddie Campbell Comics",
  "Eden",
  "Edgewater Comics",
  "Ediciones B",
  "Ediciones José G. Cruz",
  "Ediciones La Cúpula S.L.",
  "Ediciones Latinoamericanas",
  "Ediciones de la Flor",
  "Edifumetto",
  "Ediperiodici",
  "Edition C",
  "Editions First - Gründ - Dragon d\u0027Or",
  "Éditions Glénat",
  "Editions La Joie de Lire",
  "Editor",
  "Editora Trama",
  "Editora Vord",
  "Editorial Alfaguara",
  "Editorial Ejea",
  "Editorial Greco (Grupo Editorial Colombiano)",
  "Editorial Icavi Ltda.",
  "Editorial Juventud",
  "Editorial Manuel del Valle",
  "Editorial Novaro",
  "Editorial OEPISA",
  "Editorial Rodriguez",
  "Editorial Televisa",
  "Editorial Toukan",
  "Editorial Tucuman",
  "Editoriale Corno",
  "Editoriale Mercury",
  "Editormex Mexicana",
  "Editrice Cenisio",
  "Editrice Puntozero",
  "Edizioni Alpe",
  "Edizioni Araldo",
  "Edizioni Audace",
  "Edizioni BD",
  "Edizioni San Paolo",
  "Edizioni Star Comics",
  "Edizioni d’Arte “Lo Scarabeo”",
  "Educomics",
  "Edwin Aprill",
  "Eerie Publications",
  "Egmont",
  "Ehapa Verlag",
  "El Capitan",
  "El Mundo",
  "Electric Spaghetti Comics",
  "Elevenstone Studios",
  "Elite Comics",
  "Elvifrance",
  "Empresa Editora Zig Zag S.A.",
  "Endless Horizons Entertainment",
  "Enemy Transmission",
  "Enigma Comics",
  "Enterbrain",
  "Entity",
  "Entity Comics",
  "Enwill Associates",
  "Epix",
  "Eros Comix",
  "Esteem Comics",
  "Etc",
  "Eternal",
  "Eternity",
  "Eura Editoriale",
  "Eurotica",
  "Event Comics",
  "Everyman Studios",
  "Evil Twin Comics",
  "Evolution Comics",
  "Excellent Publications",
  "Exploding Albatross Funnybooks",
  "Express",
  "Extreme",
  "F",
  "FC9",
  "Fabel",
  "Factoid Books",
  "False Idol Studios",
  "Famous Funnies",
  "Fandom House",
  "Fangoria",
  "Fantaco",
  "Fantaco Enterprises",
  "Fantagor Press",
  "Fantagraphics",
  "Farrar, Straus, and Giroux",
  "Fathom Press",
  "Fawcett Publications",
  "Feest Comics",
  "Felix Comics Inc.",
  "Femme Fatales Comics",
  "Fenickx Productions",
  "Ferret Press",
  "Fiasco Comics",
  "Fiction House",
  "Fiery Studios",
  "Filmation",
  "Fireman Press LTD.",
  "First",
  "First Salvo",
  "First Second Books",
  "Fishtales Inc Productions",
  "Fishwrap Production",
  "Fitzgerald Publishing Company",
  "Flaming Face Productions",
  "Fleetway",
  "Fluid Friction",
  "Fluide Glacial",
  "Forbidden Fruit",
  "Formatic",
  "Fortress Publishing",
  "Four Star Publications",
  "Fox",
  "Fox Atomic Comics",
  "Foxtrot",
  "Fragile Press",
  "Franco Cosimo Panini",
  "Frew Publications",
  "Friendly",
  "Frightworld",
  "Full Bleed Studios",
  "Full Circle Publications",
  "Full Impact Comics",
  "Full Stop Media",
  "Fun Publications",
  "Funk-O-Tron",
  "Funnies Inc",
  "Furio Viano Editore",
  "Futabasha Publishers Ltd.",
  "Future Comics",
  "FutureQuake Press",
  "Futuropolis",
  "G & T Enterprises",
  "G. Vincent Edizioni",
  "GG Studio",
  "Galassia",
  "Galaxinovels",
  "Galaxy Publishing",
  "Game Players Comics",
  "Games Workshop",
  "Gangan Comics",
  "Garage Graphix",
  "Gary Philips",
  "Gauntlet Comics",
  "Gaviota",
  "Gearbox Press",
  "Gebers",
  "Gem Publications",
  "Gemestone Publ.",
  "Gemstone",
  "General Electric Company",
  "Generation Comics",
  "Genesis West",
  "Genome Studios",
  "George A. Pflaum",
  "Georgia Straight",
  "Giant in the Playground",
  "Gilberton Publications",
  "Gilmor",
  "Gladstone",
  "Glenat Italia",
  "Globe Communications",
  "Gold Key",
  "Gold Star Publications Ltd.",
  "Golden Press",
  "Golfing / McCombs",
  "Good Comics, Inc",
  "Gotham Entertainment Group",
  "Granata Press",
  "Grand Central Publishing",
  "Graphic Arts Service, Inc.",
  "Graton Editeur",
  "Gratuitous Bunny Comix",
  "Great Big Comics",
  "Great Publications",
  "Great Smoky Mountains Historical Association",
  "Greater Mercury",
  "Green Man Press",
  "Green Publishing",
  "Grosset And Dunlap, Inc.,",
  "Ground Zero Comics",
  "Grupo Editorial Vid",
  "Guild Publications",
  "Gutsoon",
  "H. C. Blackerby",
  "H. H. Windsor",
  "HB Comics",
  "HELOCK COMICS",
  "HM Communications",
  "Hachette",
  "Hall Of Heroes",
  "Hallden",
  "Halloween",
  "Hamilton Comics",
  "Hammarstr",
  "Hamster Press",
  "Hand Of Doom Publications",
  "Handelsanst",
  "Happy Comics Ltd.",
  "Harpercollins",
  "Harperperennial",
  "Harrier",
  "Harris Comics",
  "Harry A. Chesler/Dynamic",
  "Harry N. Abrams",
  "Harvey",
  "Harvey Pekar",
  "Hasbro",
  "Hays Entertainment",
  "Headless Shakespeare Press",
  "Heavy Metal",
  "Helsinki Media",
  "Hemmets Journal Ab",
  "Heretic Press",
  "Hero Initiative",
  "Hero Universe",
  "Heroscribe Comics!",
  "Hershenson",
  "Hi No Tori Studio",
  "High Impact Entertainment",
  "High Top",
  "Highwater",
  "Highway 62 Press",
  "Hillman",
  "Holyoke",
  "Hot Comics",
  "Hound Comics",
  "Howard, Ainslee & Co.",
  "Hugh Lauter Levin Associates",
  "Humanoids",
  "Hurricane Entertainment",
  "Hyperwerks",
  "Hyperwrench Productions",
  "I.C.E. Comics",
  "I.W. Publishing",
  "IDW Publishing",
  "INFINITY Publishing",
  "INNFUSION",
  "IPC Magazines Ltd.",
  "Icarus Publications",
  "Ice Kunion",
  "Ideals Publishing",
  "If Edizioni",
  "Iguana Comics",
  "Illustrated Humor Inc",
  "Immortelle Studios",
  "Imperium Comics",
  "In the Public Domain",
  "Industrial Services",
  "Infinity Comics",
  "Infinity Studios",
  "Infocom",
  "Innovation",
  "Insight Editions",
  "Insomnia Press",
  "International Presse Magazine",
  "Iron Circus Comics",
  "Islas Filipinas Publishing Co.",
  "J",
  "JGM Comics",
  "Jabberwocky Graphix",
  "Jack Rabbit Stewdios",
  "Jademan",
  "Jemi F",
  "Jetpack Press",
  "Jeunesse Joyeuse",
  "Jochen Enterprises",
  "Joe Deagnon",
  "John Andersson",
  "Jump Back Productions",
  "Jump Comics",
  "JuniorPress BV",
  "Juvee Comics",
  "K",
  "Kadokawa Shoten",
  "Kana",
  "Kappa Edizioni",
  "Kathang Indio",
  "Kean Soo",
  "Keenspot Entertainment",
  "Ken Pierce Inc.",
  "Kenzer And Company",
  "Key Publications",
  "Kickstart Comics",
  "King Comics",
  "King Features Syndicate",
  "King Hell",
  "Kirby Publishing Company",
  "Kitchen Sink",
  "Kitty Publications",
  "Kk",
  "Knockabout",
  "Known Associates Press",
  "Kodansha",
  "Krause Publications",
  "Kyle Baker Publishing",
  "L",
  "L. Miller & Son, Ltd",
  "L.F.P.",
  "LFB Luigi F. Bona",
  "La Musardine",
  "La Repubblica / L\u0027Espresso",
  "Lab Rat Productions",
  "Last Gasp",
  "Layne Morgan Media",
  "Le Lombard",
  "Leadbelly Publications",
  "Leader Enterprises",
  "Leading Edge Comics",
  "Lee Beardall",
  "Legion Of Evil Press",
  "Lego",
  "Lerner Publishing Group",
  "Les Editions Dargaud",
  "Lev Gleason",
  "Liar Comics",
  "Lightning Comics",
  "Lightspeed Press",
  "Lindblads F",
  "Lindqvists",
  "Linsner.com",
  "Lion King",
  "Lion Library",
  "Literacy Volunteers Of Chicago",
  "Literary Enterprises",
  "Little, Brown & Co.",
  "Lodestone",
  "Lohman Hills",
  "London Night Studios",
  "Lone Star Press",
  "Lost Cause Productions",
  "Lubrix",
  "Lucky Dragon Comics",
  "Lumen",
  "M. F. Enterprises",
  "MAD Books",
  "MDS Studios",
  "MJF Books",
  "MVCreation",
  "Mad Dog Graphics",
  "Mad Love Publishing",
  "Mad Monkey Press",
  "Maerkle Press",
  "Magazine Enterprises",
  "Magazine Management",
  "Magazzini Salani",
  "Magic Press",
  "Magnus & Bunker",
  "Majestic Entertainment",
  "Major Magazines",
  "Malmborg",
  "Manga 18",
  "Mango Comics",
  "Mansion Comics",
  "Manuscript Press",
  "Maple Leaf Publishing",
  "Mark",
  "Markosia",
  "Marsu Productions",
  "Martin L. Greim",
  "Max Bunker Press",
  "Maximum Press",
  "McCain Ellio\u0027s Comics",
  "McK Publishing",
  "McMann & Tate",
  "Mcfarland",
  "Media Press",
  "Media Works",
  "Megaton Comics",
  "Memory Lane Publication",
  "Mercury Comics",
  "Metro Comics",
  "Metropolitan Books",
  "Midnight Sons",
  "Mighty Comics",
  "Mighty Pumpkin",
  "Millennium Publications",
  "Milson",
  "Mina Editores",
  "Mindgame Press Page One, Inc.",
  "Mirage",
  "Modern",
  "Mojo Press",
  "Mondial",
  "Monkeysuit Press",
  "Monster Comics",
  "Monsterverse",
  "Moonface Press",
  "Moonstone",
  "Morning Star Productions",
  "Mosaik Steinchen F",
  "Motorcycleboy Comics",
  "Mr. Comics",
  "Mu Press",
  "Mulehide Graphics",
  "Murray Comics",
  "NFPA",
  "Naked City",
  "Narwain",
  "Nate Butler",
  "Nation-Wide comics",
  "National Comics Publication",
  "National Comics Publications",
  "National Comics Publishing",
  "National Periodical Publications",
  "National Periodical Publications Inc",
  "Nationella Trafiks",
  "Nedor",
  "Neko Press",
  "NeoSun",
  "Neuer Tessloff Verlag",
  "New American Library",
  "New Comics Group",
  "New England Comics",
  "New Media Publications",
  "New Universe",
  "New Worlds",
  "Newsbook Publishing",
  "Newspaper: Funny Pages",
  "Nickel Editions",
  "Nicotat",
  "Night Wynd Enterprises",
  "No Mercy",
  "Noble Comics",
  "Norbert Hethke Verlag",
  "Norma Editorial",
  "Normans",
  "Northstar",
  "Nostalgia Press",
  "Novaris Entertainment",
  "Novedades Editores",
  "Novelty Press",
  "Now",
  "Ocean Comics",
  "Odhams Press",
  "Odyssey Comics",
  "Ok",
  "Oktomica",
  "Olio",
  "Olympian Publishing",
  "Olyoptics",
  "Oni Press",
  "Opal",
  "Orang Utan Comics",
  "Ordfront",
  "Orin Books",
  "Oscar Caesar",
  "Oval Projects Limited",
  "P.F. Volland Company",
  "PSG Publishing House",
  "Pacific",
  "Pacific Comics",
  "Palisades Press",
  "Palliard Press",
  "Pan",
  "Pandora Press",
  "Panini Comics",
  "Pantheon Books",
  "Paper Dragonz",
  "Paper Street Comics",
  "Paper Tiger Comics",
  "Paper Tiger Comix",
  "Papyrus Comics",
  "Paquet",
  "Parents",
  "Parker Editore",
  "Parody Press",
  "Penny Farthing",
  "Pentagon Publishing Co",
  "Penthouse Comics",
  "Peregrine Entertainment",
  "Personality",
  "Phelps Publishing",
  "Phi3 Comics",
  "Philomel Books",
  "Phoenix Fire Studios",
  "Picturebox",
  "Pied Piper",
  "Pines Comics",
  "Pingvinf",
  "Pinnacle Comics",
  "Pioneer Books Inc.",
  "Planet Comics",
  "Planet Publishing",
  "Planeta DeAgostini",
  "Platinum Studios Comics",
  "Play Press",
  "Playboy Press",
  "Pocket Books",
  "Point G Comics",
  "Politisk Revy",
  "Polystyle",
  "Pop Comics",
  "Popular Press",
  "Poseur Ink",
  "Possum Press",
  "Power Comics",
  "Power Records",
  "Praxis Comics",
  "Premier Magazines",
  "Pride Comics",
  "Primal Paper Comics",
  "Print Mint",
  "Prize",
  "Progressive",
  "Promotora K",
  "Publicaciones Herrerias",
  "Publication Enterprises",
  "Publistrip",
  "Pughouse Press",
  "Pulp Theatre",
  "Pure Imagination",
  "Purrsia",
  "Pyramid Communications",
  "Q Comics",
  "Quality Comics",
  "Quality Periodicals",
  "RAK Graphics",
  "RCS MediaGroup",
  "RDS Comics",
  "RSquared Studios",
  "Rab",
  "Rabbit Valley",
  "Radbu Productions",
  "Radical Publishing",
  "Radio Comics",
  "Rainbow Media",
  "Raj Comics",
  "Ralston-Purina Company",
  "Random House",
  "Rat Race Comix",
  "Real",
  "Real Free Press",
  "Realistic",
  "Realm Press",
  "Rebel Studios",
  "Rebellion",
  "Recollections",
  "Red 5 Comics",
  "Red Circle",
  "Red Clown",
  "Red Eagle Entertainment",
  "Red Top",
  "Redbud Studio",
  "Redhead Comics",
  "Regor Company",
  "Renaissance Press",
  "Renegade",
  "Reprodukt",
  "Revolutionary",
  "Rheem Water Heating",
  "Richters F",
  "Rip Off Press",
  "Rippu Shobo",
  "Robert laffont",
  "Rocket North Publishing",
  "Roger Corman\u0027s Cosmic Comics",
  "Ronin Studios",
  "Rooster Teeth Productions",
  "Rorschach Entertainment",
  "Rotopress",
  "Rude Dude Productions",
  "Running Press",
  "Rural Home",
  "Russ Cochran",
  "Rutledge Hill Press",
  "S",
  "SANS Entertainment Comics",
  "SNK Playmore",
  "SQP",
  "Saalfield Publishing Company",
  "SaberCat Comics",
  "Sackmann Und H",
  "Sacred Mountain",
  "Saint James",
  "Salvatore Taormina editore",
  "Sanoma Uitgevers",
  "Saxon",
  "Say/Bart Productions",
  "Scar Comics",
  "Schibsted",
  "Scholastic Book Services",
  "Schultz",
  "Scrap Pictures",
  "Se-Bladene",
  "Seaboard Publishing",
  "Second To Some",
  "Semic As",
  "Semic International",
  "Sergio Bonelli Editore",
  "Seven Seas Entertainment",
  "Shanda Fantasy Arts",
  "Shibalba Press",
  "Shinshokan",
  "Shivae Studios",
  "Shogakukan",
  "Shooting Star",
  "Showcase Publications",
  "Shueisha",
  "Sig Feuchtwanger",
  "Signet Books",
  "Silent Devil Productions",
  "Silent Nemesis Workshop",
  "SilverWolf",
  "Silverline",
  "Simon And Schuster",
  "Sirius Entertainment",
  "Skandinavisk Press",
  "Skatoon Productions",
  "Skywald",
  "Sleeping Giant Comics",
  "Sm",
  "Smithsonian Institution",
  "Softbank Creative",
  "Solson Publications",
  "Sombrero",
  "Son of Sam Productions",
  "Sound & Vision International",
  "Space Goat Productions",
  "Spacedog",
  "Spark Publications",
  "Speakeasy Comics",
  "Special Action Comics",
  "Special Studio",
  "Spectrum Comics",
  "Spilled Milk",
  "Spire Christian Comics",
  "Splitter",
  "Spotlight Comics",
  "Spotlight Publishers",
  "St",
  "St. Johns Publishing Co.",
  "Stampa Alternativa / Nuovi Equilibri",
  "Stanhall",
  "Stanley Publications",
  "Stanmor Publications",
  "Star",
  "Star Publications",
  "Star Reach Publications",
  "Starhead Comix",
  "Stats Etc",
  "Sterling",
  "Stopdragon",
  "Storm Lion Publishing",
  "Story Comics",
  "Straw Dog",
  "Strawberry Jam Comics",
  "Street & Smith",
  "Street And Smith",
  "Street and Steel",
  "Striker 3D",
  "Studio 407",
  "Studio Aries",
  "Studio Foglio",
  "Studio Insidio",
  "Studio Ironcat",
  "Super Publishing",
  "Superior Publishers Limited",
  "Sussex Publishing Co",
  "Svenska Serier",
  "Swappers Quarterly And Almanac",
  "T.R.I.B.E. Studio Comics",
  "TSR",
  "Ta Nea",
  "Tapestry",
  "Tekno Comix",
  "Tell Tale Publications",
  "Tempo Books",
  "Terminal Press",
  "Terra Major",
  "Terzopoulos",
  "Teshkeel Comics",
  "Tetragrammatron",
  "Th3rd World",
  "The 3-D Zone",
  "The Comic Times, Inc.",
  "The Heritage Collection",
  "The Scream Factory",
  "The Toy Man",
  "Thorby Enterprises",
  "Thoughts",
  "Thrill-House Comics",
  "Thunder Baas",
  "Time Bomb Comics",
  "Timeless Journey Comics",
  "Timely",
  "Timely Illustrated Features",
  "Tipografia M. Tomasina",
  "Titan Books",
  "Titan Magazines",
  "Toby",
  "Tom Doherty Associates",
  "Tom Stacey",
  "Tome Press",
  "Top Cow",
  "Top Shelf",
  "Topps",
  "Torpedo Comics",
  "Toutain Editor",
  "Tower",
  "Tower Books",
  "Transfuzion Publishing",
  "Transmission X Comics",
  "Trepidation Comics",
  "Trident Comics",
  "Trigon",
  "Triumph",
  "Triumphant",
  "Triumphant Comics",
  "Trojan",
  "True Believers Press",
  "True Patriot Studios",
  "Tumble Creek Press",
  "Tundra",
  "Tundra Uk",
  "Tusquets Editores",
  "Twomorrow",
  "Tyler James Comics",
  "UDON",
  "US Department of Health, Education and Welfare",
  "Uitgeverij C.I.C.",
  "Ultimate Comic Group",
  "Ultimate Creations",
  "Ultimate Sports Force",
  "Ungdomsmissionens V",
  "Unified Field Operations",
  "United Features",
  "Universe",
  "Utslag",
  "Utterly Strange Publications",
  "Valiant",
  "Valve",
  "Vanguard Productions",
  "Vents d\u0027Ouest",
  "Vermillon",
  "Verotik",
  "Vertical Inc.",
  "Victor Gollancz Ltd.",
  "Victory",
  "View Askew",
  "Viper Comics",
  "Virgin Comics",
  "Virus Comix",
  "Vittorio Pavesio Productions",
  "Vivid Publishing",
  "Viz",
  "Viz Premiere",
  "Viz Select",
  "Vortex",
  "Vrijbuiter, De",
  "W.T. Grant",
  "WCG",
  "WSOY",
  "Wallace Wood",
  "Walt Disney Company Italia",
  "Warner Books",
  "Warner Brothers",
  "Warp Graphics",
  "Warren",
  "Warrior Publications",
  "Watson-Guptill Publications",
  "Webs Adventure Corporation",
  "Welsh Publishing Group",
  "Western Publishing.",
  "White Buffaloe Press",
  "White Lightning Productions",
  "Whitman",
  "Whitman Publishing",
  "Wicked Good Comics",
  "Wild and Wooly Press",
  "Wildcard Production",
  "William H Wise",
  "Williams F",
  "Willms Verlag",
  "Windjammer",
  "Winthers",
  "Wisconson Department Of justice",
  "Wonder Comix",
  "Work Horse Comics",
  "XL Creations",
  "Xanadu Publishing, Inc.",
  "Yen Press",
  "Yendie Book Publishing",
  "Yoe Studio",
  "Youthful",
  "ZOOLOOK",
  "Zenescope Entertainment",
  "Ziff",
  "Ziff Davis Media",
  "Zip Comics",
  "Zodiac",
  "Zuzupetal Press",
  "Zwerchfell",
  "comicsone.com",
  "eBay",
  "ffantasy ffactory",
  "iVerse Media",
  "inZane Comics",
  "mg/publishing",
  "self published",
  "talcMedia Press",
  "¡Ka-Boom! Estudio S.A. de C.V."
]

/-! ## Dictionary lookup and the resolver -/

/-- Python dict lookup on an association list: first matching key wins
(the source dict has distinct keys, so this is exact). -/
def dictLookup : List (String × String) → String → Option String
  | [], _ => none
  | (k, v) :: rest, s => if s == k then some v else dictLookup rest s

/-- `find_parent_publisher(imprint_s)`: strip the input, then look it up in
the imprint table; return the mapped parent on a hit, the stripped input on
a miss. -/
def find_parent_publisher (imprint_s : String) : String :=
  let t := pstrip imprint_s
  match dictLookup imprint_map t with
  | some v => v
  | none => t

/-- The resolver as an explicit state-passing call: the backing table is
threaded through the call.  The source function only ever reads the table
(`in` test and subscript access), so the call returns it untouched; this
makes the purity claim about the source checkable. -/
def find_parent_publisher_call (tbl : List (String × String)) (s : String) :
    String × List (String × String) :=
  let t := pstrip s
  match dictLookup tbl t with
  | some v => (v, tbl)
  | none => (t, tbl)

/-! ## The reconciliation script (`__main__` block)

The script fetches `http://www.comicvine.com/publishers/?page=N&sort=alphabetical`
for N = 1, 2, ..., HTML-decodes the body, extracts names with the regex
`(?m)<td[^>]*>\s*<a[^>]*>([^<]*)</a>\s*</td>`, strips and deduplicates them,
and stops as soon as a page's match set is a subset of what was already
accumulated.  It then diffs the accumulated set against the two tables.

The network is modelled as a function from page numbers to
`Except String String`: `.ok html` is a successful fetch, `.error msg` a
`WebException` whose printed form is `msg`.
-/

/-- Model of `System.Web.HttpUtility.HtmlDecode` (an external library call):
replaces the standard named character entities and numeric character
references, leaving everything else unchanged. -/
def htmlDecodeAux : Nat → List Char → List Char
  | 0, l => l
  | _, [] => []
  | n + 1, '&' :: rest =>
    if rest.take 4 = ['a', 'm', 'p', ';'] then '&' :: htmlDecodeAux n (rest.drop 4)
    else if rest.take 3 = ['l', 't', ';'] then '<' :: htmlDecodeAux n (rest.drop 3)
    else if rest.take 3 = ['g', 't', ';'] then '>' :: htmlDecodeAux n (rest.drop 3)
    else if rest.take 5 = ['q', 'u', 'o', 't', ';'] then '"' :: htmlDecodeAux n (rest.drop 5)
    else if rest.take 5 = ['a', 'p', 'o', 's', ';'] then '\u0027' :: htmlDecodeAux n (rest.drop 5)
    else if rest.head? = some '#' then
      let digits := (rest.drop 1).takeWhile Char.isDigit
      let after := (rest.drop 1).dropWhile Char.isDigit
      if digits ≠ [] ∧ after.head? = some ';' then
        Char.ofNat (String.mk digits).toNat! :: htmlDecodeAux n (after.drop 1)
      else '&' :: htmlDecodeAux n rest
    else '&' :: htmlDecodeAux n rest
  | n + 1, c :: rest => c :: htmlDecodeAux n rest

/-- HTML-decode a string (model of `HttpUtility.HtmlDecode`). -/
def htmlDecode (s : String) : String :=
  String.mk (htmlDecodeAux s.data.length s.data)

/-- Match a literal character sequence at the front of the input, returning
the remainder on success. -/
def dropLit : List Char → List Char → Option (List Char)
  | [], rest => some rest
  | c :: cs, d :: ds => if d == c then dropLit cs ds else none
  | _ :: _, [] => none

/-- Try to match the scraping regex `<td[^>]*>\s*<a[^>]*>([^<]*)</a>\s*</td>`
at the start of the input.  Each starred class excludes the character the
following literal starts with, so greedy matching is exact and no
backtracking arises.  Returns the captured group and the rest of the input
after the match. -/
def matchTdA (l : List Char) : Option (List Char × List Char) := do
  let r1 ← dropLit ['<', 't', 'd'] l
  let r2 ← dropLit ['>'] (r1.dropWhile (fun c => c != '>'))
  let r3 ← dropLit ['<', 'a'] (r2.dropWhile isPySpace)
  let r4 ← dropLit ['>'] (r3.dropWhile (fun c => c != '>'))
  let cap := r4.takeWhile (fun c => c != '<')
  let r5 ← dropLit ['<', '/', 'a', '>'] (r4.dropWhile (fun c => c != '<'))
  let r6 ← dropLit ['<', '/', 't', 'd', '>'] (r5.dropWhile isPySpace)
  pure (cap, r6)

/-- `re.findall` with the scraping regex: scan left to right, emit the
captured group of each non-overlapping match, resume after each match.
The fuel argument is the length of the input; every step consumes at least
one character, so it never runs out on the initial call. -/
def findallAux : Nat → List Char → List (List Char)
  | 0, _ => []
  | _, [] => []
  | n + 1, l@(_ :: rest) =>
    match matchTdA l with
    | some (cap, r) => cap :: findallAux n r
    | none => findallAux n rest

/-- All captures of the scraping regex over a string. -/
def findallTd (s : String) : List String :=
  (findallAux s.data.length s.data).map String.mk

/-- Add an element to a list treated as a set (no-op when present). -/
def setAdd (acc : List String) (x : String) : List String :=
  if acc.contains x then acc else acc ++ [x]

/-- Union of a set-list with a list of elements (Python `set.update`). -/
def listUnion (acc : List String) (xs : List String) : List String :=
  xs.foldl setAdd acc

/-- Python `set(...)` of a list of strings (as a duplicate-free list). -/
def dedupStr (l : List String) : List String := listUnion [] l

/-- Python `a <= b` on sets: is every element of `a` in `b`? -/
def subsetB (a b : List String) : Bool := a.all (fun x => b.contains x)

/-- One page's extracted name set:
`set([m.strip() for m in re.findall(pattern, HtmlDecode(html))])`. -/
def extractNames (html : String) : List String :=
  dedupStr ((findallTd (htmlDecode html)).map pstrip)

/-- The body text a page fetch leaves in `html`: the response body on
success, and the empty string when a `WebException` is caught (the
`html = ""` initialisation is never overwritten in that case). -/
def fetchHtml (fetch : Nat → Except String String) (p : Nat) : String :=
  match fetch p with
  | .ok h => h
  | .error _ => ""

/-- The line printed by the `except WebException` handler, if any. -/
def fetchErrLines (fetch : Nat → Except String String) (p : Nat) : List String :=
  match fetch p with
  | .ok _ => []
  | .error msg => ["unexpected web exception: " ++ msg]

/-- The per-page progress line `"Page <n>, <k> publishers..."`. -/
def pageLine (p : Nat) (k : Nat) : String :=
  "Page " ++ Nat.repr p ++ ", " ++ Nat.repr k ++ " publishers..."

/-- State of the scraping loop: the next value of the page counter is
`page + 1`; `scraped` is the accumulated publisher set; `output` the lines
printed so far; `fetched` the pages requested so far; `done` the loop
flag. -/
structure RunState where
  page : Nat
  scraped : List String
  output : List String
  fetched : List Nat
  done : Bool
deriving Repr, DecidableEq

/-- One iteration of the `while not done` loop: increment the page counter,
fetch (recording the request and any exception line), decode and extract,
test `matches <= scraped_publishers`; on a subset the loop flag is set and
nothing is merged or printed, otherwise the matches are merged and the
progress line is printed. -/
def loopStep (fetch : Nat → Except String String) (st : RunState) : RunState :=
  let p := st.page + 1
  let ms := extractNames (fetchHtml fetch p)
  if subsetB ms st.scraped then
    { page := p, scraped := st.scraped,
      output := st.output ++ fetchErrLines fetch p,
      fetched := st.fetched ++ [p], done := true }
  else
    { page := p, scraped := listUnion st.scraped ms,
      output := st.output ++ fetchErrLines fetch p ++ [pageLine p ms.length],
      fetched := st.fetched ++ [p], done := false }

/-- Run the scraping loop for at most `fuel` iterations (the Python loop
has no fuel; every theorem that uses `loopRun` either supplies enough fuel
for the concrete scenario or shows the state is already a fixed point). -/
def loopRun (fetch : Nat → Except String String) : Nat → RunState → RunState
  | 0, st => st
  | n + 1, st => if st.done then st else loopRun fetch n (loopStep fetch st)

/-- The state of the script just before the loop:
`scraped_publishers = set()`, `page = 0`, `done = False`, with the banner
line already printed. -/
def initState : RunState :=
  { page := 0, scraped := [],
    output := ["Gathering publishers from ComicVine..."],
    fetched := [], done := false }

/-- Insert a string into a sorted list (for Python's `sorted`). -/
def insertSorted (x : String) : List String → List String
  | [] => [x]
  | y :: ys => if x < y then x :: y :: ys else y :: insertSorted x ys

/-- Python's `sorted` on a list of strings (insertion sort). -/
def sortStrings (l : List String) : List String := l.foldr insertSorted []

/-- Python `k in __imprint_map`: dict membership is key membership. -/
def dictHasKey (tbl : List (String × String)) (k : String) : Bool :=
  (tbl.map Prod.fst).contains k

/-- Diff 1: `for imprint in __imprint_map: if imprint not in scraped_publishers`. -/
def goneImprintLines (scraped : List String) : List String :=
  ((imprint_map.map Prod.fst).filter (fun k => !scraped.contains k)).map
    (fun k => "Not in ComicVine: " ++ k)

/-- Diff 2: `for publisher in __other_publishers: if publisher not in scraped_publishers`. -/
def goneOtherLines (scraped : List String) : List String :=
  (other_publishers.filter (fun q => !scraped.contains q)).map
    (fun q => "Not in ComicVine: " ++ q)

/-- Diff 3: `for publisher in sorted(scraped_publishers): if publisher not in
__imprint_map and publisher not in __other_publishers`. -/
def newPublisherLines (scraped : List String) : List String :=
  ((sortStrings scraped).filter
      (fun q => !dictHasKey imprint_map q && !other_publishers.contains q)).map
    (fun q => "Not in module: " ++ q)

/-- The whole diff report.  `all_clear` starts `True` and is cleared by
every diff line printed, so the summary line appears exactly when the three
diffs produced no line. -/
def diffLines (scraped : List String) : List String :=
  let l1 := goneImprintLines scraped
  let l2 := goneOtherLines scraped
  let l3 := newPublisherLines scraped
  l1 ++ l2 ++ l3 ++ (if l1 = [] ∧ l2 = [] ∧ l3 = [] then ["Nothing to update!"] else [])

/-- The whole script: run the scraping loop, then print the diff report on
the accumulated set. -/
def mainScript (fetch : Nat → Except String String) (fuel : Nat) : List String :=
  let st := loopRun fetch fuel initState
  st.output ++ diffLines st.scraped

/-- A synthetic catalogue where every page yields the names A and B. -/
def fetchAB : Nat → Except String String :=
  fun _ => .ok "<td><a>A</a></td> <td><a>B</a></td>"

/-- A synthetic catalogue where every page is an empty document. -/
def fetchBlank : Nat → Except String String :=
  fun _ => .ok ""

/-- A synthetic catalogue where every fetch raises a `WebException`. -/
def fetchBoom : Nat → Except String String :=
  fun _ => .error "boom"


/-! ## Order infrastructure for the table proofs

The membership and disjointness checks over the large publisher table are
proved via a lexicographic order: the bulk of the table is sorted, so a
name's absence follows from a single comparison against each neighbour at
its insertion point instead of a scan of the whole table.
-/

/-- Lexicographic strict comparison of character lists in code-point order. -/
def ltChars : List Char → List Char → Bool
  | [], [] => false
  | [], _ :: _ => true
  | _ :: _, [] => false
  | a :: as, b :: bs => if a < b then true else if b < a then false else ltChars as bs

/-- Lexicographic strict comparison of strings. -/
def ltStr (s t : String) : Bool := ltChars s.data t.data

/-- Is the list strictly increasing in `ltStr` order? -/
def chainLtB : List String → Bool
  | [] => true
  | [_] => true
  | a :: b :: rest => ltStr a b && chainLtB (b :: rest)

/-- The 18 parent-publisher constants at the head of `other_publishers`. -/
def opConsts : List String := other_publishers.take 18

/-- The first sorted run of the literal entries of `other_publishers`. -/
def opRun1 : List String := (other_publishers.drop 18).take 489

/-- The second sorted run of the literal entries of `other_publishers`. -/
def opRun2 : List String := (other_publishers.drop 18).drop 489

/-! ## Helper lemmas -/

theorem dropWhile_head_false {α : Type} (p : α → Bool) :
    ∀ (l : List α) (a : α) (t : List α), l.dropWhile p = a :: t → p a = false := by
  intro l
  induction l with
  | nil => intro a t h; simp at h
  | cons b bs ih =>
    intro a t h
    rw [List.dropWhile_cons] at h
    by_cases hb : p b
    · rw [if_pos hb] at h
      exact ih a t h
    · rw [if_neg hb] at h
      cases h
      simpa using hb

theorem dropWhile_eq_self_of_head {α : Type} (p : α → Bool) (l : List α)
    (h : ∀ a t, l = a :: t → p a = false) : l.dropWhile p = l := by
  cases l with
  | nil => rfl
  | cons a t =>
    rw [List.dropWhile_cons, h a t rfl]
    simp

theorem stripChars_head_false (l : List Char) (a : Char) (t : List Char)
    (ha : stripChars l = a :: t) : isPySpace a = false := by
  have ha' : ((l.dropWhile isPySpace).reverse.dropWhile isPySpace).reverse = a :: t := by
    simpa [stripChars] using ha
  have hsplit : (l.dropWhile isPySpace).reverse.takeWhile isPySpace ++
      (l.dropWhile isPySpace).reverse.dropWhile isPySpace = (l.dropWhile isPySpace).reverse :=
    List.takeWhile_append_dropWhile ..
  have hx : l.dropWhile isPySpace
      = ((l.dropWhile isPySpace).reverse.dropWhile isPySpace).reverse
        ++ ((l.dropWhile isPySpace).reverse.takeWhile isPySpace).reverse := by
    have h2 := congrArg List.reverse hsplit
    simp only [List.reverse_append, List.reverse_reverse] at h2
    exact h2.symm
  rw [ha'] at hx
  have hx' : l.dropWhile isPySpace
      = a :: (t ++ ((l.dropWhile isPySpace).reverse.takeWhile isPySpace).reverse) := by
    simpa using hx
  exact dropWhile_head_false _ _ _ _ hx'

theorem stripChars_idem (l : List Char) : stripChars (stripChars l) = stripChars l := by
  have h1 : (stripChars l).dropWhile isPySpace = stripChars l :=
    dropWhile_eq_self_of_head _ _ (fun a t ha => stripChars_head_false l a t ha)
  show ((((stripChars l).dropWhile isPySpace).reverse).dropWhile isPySpace).reverse = stripChars l
  rw [h1]
  have h3 : (stripChars l).reverse.dropWhile isPySpace = (stripChars l).reverse := by
    apply dropWhile_eq_self_of_head
    intro b t hb
    have hb' : ((l.dropWhile isPySpace).reverse).dropWhile isPySpace = b :: t := by
      simpa [stripChars] using hb
    exact dropWhile_head_false _ _ _ _ hb'
  rw [h3]
  simp

theorem pstrip_idem (s : String) : pstrip (pstrip s) = pstrip s := by
  unfold pstrip
  exact congrArg String.mk (stripChars_idem s.data)

theorem dictLookup_mem (l : List (String × String)) (s v : String)
    (h : dictLookup l s = some v) : ∃ k, (k, v) ∈ l := by
  induction l with
  | nil => simp [dictLookup] at h
  | cons p rest ih =>
    obtain ⟨k0, v0⟩ := p
    rw [dictLookup] at h
    by_cases hk : s == k0
    · rw [if_pos hk] at h
      exact ⟨k0, by simp [← Option.some_inj.mp h]⟩
    · rw [if_neg hk] at h
      obtain ⟨k, hkmem⟩ := ih h
      exact ⟨k, List.mem_cons_of_mem _ hkmem⟩

theorem mem_dictLookup (l : List (String × String))
    (hnd : (l.map Prod.fst).Nodup) (k v : String) (h : (k, v) ∈ l) :
    dictLookup l k = some v := by
  induction l with
  | nil => simp at h
  | cons p rest ih =>
    obtain ⟨k0, v0⟩ := p
    rw [List.map_cons, List.nodup_cons] at hnd
    rw [dictLookup]
    rcases List.mem_cons.mp h with heq | hmem
    · injection heq with h1 h2
      subst h1; subst h2
      simp
    · have hne : k ≠ k0 := by
        intro hkk
        have h5 : (k, v).1 ∈ rest.map Prod.fst := List.mem_map_of_mem Prod.fst hmem
        rw [show (k, v).1 = k from rfl, hkk] at h5
        exact hnd.1 h5
      rw [if_neg (by simpa using hne)]
      exact ih hnd.2 hmem

theorem not_mem_dictLookup (l : List (String × String)) (k : String)
    (h : k ∉ l.map Prod.fst) : dictLookup l k = none := by
  induction l with
  | nil => rfl
  | cons p rest ih =>
    obtain ⟨k0, v0⟩ := p
    rw [List.map_cons] at h
    have hne : k ≠ k0 := by
      intro hkk
      subst hkk
      exact h (List.mem_cons_self _ _)
    rw [dictLookup, if_neg (by simpa using hne)]
    exact ih (fun hm => h (List.mem_cons_of_mem _ hm))

theorem mem_insertSorted (x a : String) (l : List String) :
    a ∈ insertSorted x l ↔ a = x ∨ a ∈ l := by
  induction l with
  | nil => simp [insertSorted]
  | cons y ys ih =>
    rw [insertSorted]
    by_cases hxy : x < y
    · rw [if_pos hxy]
      simp
    · rw [if_neg hxy]
      simp only [List.mem_cons, ih]
      tauto

theorem mem_sortStrings (a : String) (l : List String) :
    a ∈ sortStrings l ↔ a ∈ l := by
  induction l with
  | nil => simp [sortStrings]
  | cons y ys ih =>
    show a ∈ insertSorted y (sortStrings ys) ↔ _
    rw [mem_insertSorted, ih]
    simp

theorem loopRun_done (fetch : Nat → Except String String) (n : Nat)
    (st : RunState) (h : st.done = true) : loopRun fetch n st = st := by
  cases n with
  | zero => rfl
  | succ m => rw [loopRun, if_pos h]

theorem append_ne_summary_cv (x : String) :
    "Not in ComicVine: " ++ x ≠ "Nothing to update!" := by
  intro h
  have h3 : (['N', 'o', 't', ' '] : List Char) = ['N', 'o', 't', 'h'] := by
    calc (['N', 'o', 't', ' '] : List Char)
        = ("Not in ComicVine: " ++ x).data.take 4 := rfl
      _ = ("Nothing to update!" : String).data.take 4 := by rw [h]
      _ = ['N', 'o', 't', 'h'] := rfl
  simp at h3

theorem append_ne_summary_mod (x : String) :
    "Not in module: " ++ x ≠ "Nothing to update!" := by
  intro h
  have h3 : (['N', 'o', 't', ' '] : List Char) = ['N', 'o', 't', 'h'] := by
    calc (['N', 'o', 't', ' '] : List Char)
        = ("Not in module: " ++ x).data.take 4 := rfl
      _ = ("Nothing to update!" : String).data.take 4 := by rw [h]
      _ = ['N', 'o', 't', 'h'] := rfl
  simp at h3

theorem imprint_keys_nodup : (imprint_map.map Prod.fst).Nodup := by decide

theorem find_parent_publisher_eq (s : String) :
    find_parent_publisher s =
      match dictLookup imprint_map (pstrip s) with
      | some v => v
      | none => pstrip s := rfl

theorem imprint_values_fixed :
    ∀ p ∈ imprint_map, pstrip p.2 = p.2 ∧ dictLookup imprint_map p.2 = none := by decide

/-! ## The claims -/

/-- C1: for every input string whose whitespace-trimmed form exactly matches
(case- and punctuation-sensitively) a key of the imprint table,
`find_parent_publisher` returns the parent value mapped to that key; in
particular `"  Vertigo  "` resolves to `"DC Comics"` and `"Icon Comics"` to
`"Marvel"`. -/
theorem find_parent_publisher_maps_keys :
    (∀ s v, (pstrip s, v) ∈ imprint_map → find_parent_publisher s = v) ∧
    find_parent_publisher "  Vertigo  " = "DC Comics" ∧
    find_parent_publisher "Icon Comics" = "Marvel" := by
  refine ⟨fun s v h => ?_, by decide, by decide⟩
  rw [find_parent_publisher_eq, mem_dictLookup imprint_map imprint_keys_nodup (pstrip s) v h]

/-- Witness for C1 at the concrete input `"  Vertigo  "`. -/
theorem find_parent_publisher_maps_keys_witness :
    (pstrip "  Vertigo  ", "DC Comics") ∈ imprint_map ∧
    find_parent_publisher "  Vertigo  " = "DC Comics" :=
  ⟨by decide, find_parent_publisher_maps_keys.1 "  Vertigo  " "DC Comics" (by decide)⟩

/-- C2: for every input string whose whitespace-trimmed form is not a key of
the imprint table, `find_parent_publisher` returns the trimmed input
unchanged (pass-through, never an error); in particular `"Marvel"` resolves
to `"Marvel"`. -/
theorem find_parent_publisher_passthrough :
    (∀ s, pstrip s ∉ imprint_map.map Prod.fst → find_parent_publisher s = pstrip s) ∧
    find_parent_publisher "Marvel" = "Marvel" := by
  refine ⟨fun s h => ?_, by decide⟩
  rw [find_parent_publisher_eq, not_mem_dictLookup imprint_map (pstrip s) h]

/-- Witness for C2 at the concrete input `"Marvel"`. -/
theorem find_parent_publisher_passthrough_witness :
    pstrip "Marvel" ∉ imprint_map.map Prod.fst ∧
    find_parent_publisher "Marvel" = pstrip "Marvel" :=
  ⟨by decide, find_parent_publisher_passthrough.1 "Marvel" (by decide)⟩

/-- C8: `find_parent_publisher` is deterministic and side-effect free: the
state-passing form of the call returns the backing table unchanged, a second
call on the table state left by a first call with the same input returns the
same output, and on the module's table the call computes exactly
`find_parent_publisher`. -/
theorem find_parent_publisher_pure :
    ∀ (tbl : List (String × String)) (s : String),
      (find_parent_publisher_call tbl s).2 = tbl ∧
      (find_parent_publisher_call (find_parent_publisher_call tbl s).2 s).1
        = (find_parent_publisher_call tbl s).1 ∧
      (find_parent_publisher_call imprint_map s).1 = find_parent_publisher s := by
  intro tbl s
  unfold find_parent_publisher_call find_parent_publisher
  cases h : dictLookup tbl (pstrip s) <;>
    cases h2 : dictLookup imprint_map (pstrip s) <;> simp [h, h2]

/-- C10: `find_parent_publisher` is idempotent: applying it to its own
result returns that result unchanged, because no value of the imprint table
is itself a key of the table and every value is free of surrounding
whitespace. -/
theorem find_parent_publisher_idempotent :
    ∀ s, find_parent_publisher (find_parent_publisher s) = find_parent_publisher s := by
  intro s
  cases h : dictLookup imprint_map (pstrip s) with
  | none =>
    rw [find_parent_publisher_eq s, h, find_parent_publisher_eq (pstrip s), pstrip_idem, h]
  | some v =>
    obtain ⟨k, hk⟩ := dictLookup_mem imprint_map (pstrip s) v h
    obtain ⟨hfix, hnone⟩ := imprint_values_fixed (k, v) hk
    rw [find_parent_publisher_eq s, h, find_parent_publisher_eq v]
    simp only at hfix hnone
    rw [hfix, hnone]

theorem loopStep_eq (fetch : Nat → Except String String) (st : RunState) :
    loopStep fetch st =
      if subsetB (extractNames (fetchHtml fetch (st.page + 1))) st.scraped then
        { page := st.page + 1, scraped := st.scraped,
          output := st.output ++ fetchErrLines fetch (st.page + 1),
          fetched := st.fetched ++ [st.page + 1], done := true }
      else
        { page := st.page + 1,
          scraped := listUnion st.scraped (extractNames (fetchHtml fetch (st.page + 1))),
          output := st.output ++ fetchErrLines fetch (st.page + 1)
            ++ [pageLine (st.page + 1) (extractNames (fetchHtml fetch (st.page + 1))).length],
          fetched := st.fetched ++ [st.page + 1], done := false } := rfl

/-- C3: the pagination loop stops exactly when the current page's extracted
(trimmed, within-page deduplicated) name set is a subset of the names
accumulated from earlier pages; when the page does introduce new names they
are merged into the accumulator and the loop goes on to the next page
number.  For two synthetic pages each yielding `{"A", "B"}`, the
accumulator after convergence is exactly `{"A", "B"}` and exactly one
page-2 fetch occurs before stopping. -/
theorem reconciler_fixed_point :
    (∀ fetch st,
      (subsetB (extractNames (fetchHtml fetch (st.page + 1))) st.scraped = true →
        (loopStep fetch st).done = true ∧
        (loopStep fetch st).scraped = st.scraped ∧
        ∀ n, loopRun fetch n (loopStep fetch st) = loopStep fetch st) ∧
      (subsetB (extractNames (fetchHtml fetch (st.page + 1))) st.scraped = false →
        (loopStep fetch st).done = false ∧
        (loopStep fetch st).scraped
          = listUnion st.scraped (extractNames (fetchHtml fetch (st.page + 1))) ∧
        (loopStep fetch st).page = st.page + 1)) ∧
    (loopRun fetchAB 10 initState).scraped = ["A", "B"] ∧
    (loopRun fetchAB 10 initState).fetched = [1, 2] := by
  refine ⟨fun fetch st => ⟨fun h => ?_, fun h => ?_⟩, by decide, by decide⟩
  · have hstep : loopStep fetch st =
        { page := st.page + 1, scraped := st.scraped,
          output := st.output ++ fetchErrLines fetch (st.page + 1),
          fetched := st.fetched ++ [st.page + 1], done := true } := by
      rw [loopStep_eq, if_pos h]
    refine ⟨by rw [hstep], by rw [hstep], fun n => ?_⟩
    exact loopRun_done fetch n _ (by rw [hstep])
  · have hstep : loopStep fetch st =
        { page := st.page + 1,
          scraped := listUnion st.scraped (extractNames (fetchHtml fetch (st.page + 1))),
          output := st.output ++ fetchErrLines fetch (st.page + 1)
            ++ [pageLine (st.page + 1) (extractNames (fetchHtml fetch (st.page + 1))).length],
          fetched := st.fetched ++ [st.page + 1], done := false } := by
      rw [loopStep_eq, if_neg (by simp [h])]
    exact ⟨by rw [hstep], by rw [hstep], by rw [hstep]⟩

/-- Witness for C3: on the synthetic two-page catalogue the first page is
not contained in the empty accumulator, so the loop merges and continues. -/
theorem reconciler_fixed_point_witness :
    subsetB (extractNames (fetchHtml fetchAB 1)) initState.scraped = false ∧
    (loopStep fetchAB initState).done = false :=
  ⟨by decide, (((reconciler_fixed_point.1 fetchAB initState).2) (by decide)).1⟩

/-- C4: if the fetch of a page raises a transport failure, the failure is
reported to the output, `html` remains the empty string for that iteration,
the extracted name set is empty and — being trivially a subset of the
accumulator — the termination condition fires, so pagination stops after
that page with no retry, and the run continues to the diff-report phase
(shown concretely: with every fetch failing, the script output still
contains the exception line and diff-report lines). -/
theorem reconciler_fetch_failure :
    (∀ fetch st msg, fetch (st.page + 1) = .error msg →
      fetchHtml fetch (st.page + 1) = "" ∧
      extractNames (fetchHtml fetch (st.page + 1)) = [] ∧
      (loopStep fetch st).done = true ∧
      (loopStep fetch st).scraped = st.scraped ∧
      (loopStep fetch st).output = st.output ++ ["unexpected web exception: " ++ msg] ∧
      (∀ n, loopRun fetch n (loopStep fetch st) = loopStep fetch st)) ∧
    ("unexpected web exception: boom") ∈ mainScript fetchBoom 10 ∧
    ("Not in ComicVine: " ++ "2000AD") ∈ mainScript fetchBoom 10 := by
  refine ⟨fun fetch st msg h => ?_, by decide, by decide⟩
  have hh : fetchHtml fetch (st.page + 1) = "" := by
    unfold fetchHtml
    rw [h]
  have he : extractNames (fetchHtml fetch (st.page + 1)) = [] := by rw [hh]; rfl
  have herr : fetchErrLines fetch (st.page + 1) = ["unexpected web exception: " ++ msg] := by
    unfold fetchErrLines
    rw [h]
  have hsub : subsetB (extractNames (fetchHtml fetch (st.page + 1))) st.scraped = true := by
    rw [he]; rfl
  have hstep : loopStep fetch st =
      { page := st.page + 1, scraped := st.scraped,
        output := st.output ++ ["unexpected web exception: " ++ msg],
        fetched := st.fetched ++ [st.page + 1], done := true } := by
    rw [loopStep_eq, if_pos hsub, herr]
  refine ⟨hh, he, by rw [hstep], by rw [hstep], by rw [hstep], fun n => ?_⟩
  exact loopRun_done fetch n _ (by rw [hstep])

/-- Witness for C4: a catalogue whose every fetch fails stops the loop
right after page 1. -/
theorem reconciler_fetch_failure_witness :
    fetchBoom (initState.page + 1) = .error "boom" ∧
    (loopStep fetchBoom initState).done = true :=
  ⟨rfl, (reconciler_fetch_failure.1 fetchBoom initState "boom" rfl).2.2.1⟩

/-- C9 counterexample: the claim says a per-page output line is emitted for
every page fetched, including the final page whose fetch triggers
termination; but on a catalogue whose first page yields no names, page 1 is
fetched and the loop stops with no per-page line at all in the output. -/
theorem reconciler_page_line_counterexample :
    (loopRun fetchBlank 10 initState).fetched = [1] ∧
    (loopRun fetchBlank 10 initState).output = ["Gathering publishers from ComicVine..."] ∧
    pageLine 1 (extractNames (fetchHtml fetchBlank 1)).length
      ∉ (loopRun fetchBlank 10 initState).output := by
  exact ⟨by decide, by decide, by decide⟩

/-- C9 (amended): the reconciler emits one output line (with a running
count of names found on that page) for every fetched page that introduced
new names, i.e. for every page fetched during the pagination loop except
the final page, whose fetch triggers termination and produces no per-page
line. -/
theorem reconciler_page_line_per_merge :
    ∀ fetch st,
      (subsetB (extractNames (fetchHtml fetch (st.page + 1))) st.scraped = false →
        (loopStep fetch st).output = st.output ++ fetchErrLines fetch (st.page + 1)
          ++ [pageLine (st.page + 1) (extractNames (fetchHtml fetch (st.page + 1))).length]) ∧
      (subsetB (extractNames (fetchHtml fetch (st.page + 1))) st.scraped = true →
        (loopStep fetch st).output = st.output ++ fetchErrLines fetch (st.page + 1)) := by
  intro fetch st
  constructor
  · intro h
    rw [loopStep_eq, if_neg (by simp [h])]
  · intro h
    rw [loopStep_eq, if_pos h]

/-- Witness for the amended C9 on the synthetic two-page catalogue. -/
theorem reconciler_page_line_per_merge_witness :
    subsetB (extractNames (fetchHtml fetchAB 1)) initState.scraped = false ∧
    (loopStep fetchAB initState).output = initState.output ++ fetchErrLines fetchAB 1
      ++ [pageLine 1 (extractNames (fetchHtml fetchAB 1)).length] :=
  ⟨by decide, (reconciler_page_line_per_merge fetchAB initState).1 (by decide)⟩

theorem diffLines_eq (scraped : List String) :
    diffLines scraped = goneImprintLines scraped ++ goneOtherLines scraped
      ++ newPublisherLines scraped
      ++ (if goneImprintLines scraped = [] ∧ goneOtherLines scraped = []
            ∧ newPublisherLines scraped = [] then ["Nothing to update!"] else []) := rfl

theorem goneImprintLines_nil_iff (scraped : List String) :
    goneImprintLines scraped = []
      ↔ ∀ k ∈ imprint_map.map Prod.fst, scraped.contains k = true := by
  simp [goneImprintLines]

theorem goneOtherLines_nil_iff (scraped : List String) :
    goneOtherLines scraped = [] ↔ ∀ q ∈ other_publishers, scraped.contains q = true := by
  simp [goneOtherLines]

theorem newPublisherLines_nil_iff (scraped : List String) :
    newPublisherLines scraped = []
      ↔ ∀ q ∈ scraped,
          dictHasKey imprint_map q = true ∨ other_publishers.contains q = true := by
  simp only [newPublisherLines, List.map_eq_nil_iff, List.filter_eq_nil_iff,
    Bool.and_eq_true, Bool.not_eq_true', not_and]
  constructor
  · intro h q hq
    by_cases hk : dictHasKey imprint_map q = true
    · exact Or.inl hk
    · exact Or.inr (by simpa using h q ((mem_sortStrings q scraped).mpr hq) (by simpa using hk))
  · intro h q hq hkey
    rcases h q ((mem_sortStrings q scraped).mp hq) with h1 | h2
    · rw [hkey] at h1
      simp at h1
    · simpa using h2

theorem mem_goneImprintLines (scraped : List String) (k : String)
    (hk : k ∈ imprint_map.map Prod.fst) (hc : scraped.contains k = false) :
    ("Not in ComicVine: " ++ k) ∈ goneImprintLines scraped := by
  apply List.mem_map_of_mem
  exact List.mem_filter.mpr ⟨hk, by simpa using hc⟩

theorem mem_goneOtherLines (scraped : List String) (q : String)
    (hq : q ∈ other_publishers) (hc : scraped.contains q = false) :
    ("Not in ComicVine: " ++ q) ∈ goneOtherLines scraped := by
  apply List.mem_map_of_mem
  exact List.mem_filter.mpr ⟨hq, by simpa using hc⟩

theorem mem_newPublisherLines (scraped : List String) (q : String)
    (hq : q ∈ scraped) (hk : dictHasKey imprint_map q = false)
    (hc : other_publishers.contains q = false) :
    ("Not in module: " ++ q) ∈ newPublisherLines scraped := by
  apply List.mem_map_of_mem
  exact List.mem_filter.mpr ⟨(mem_sortStrings q scraped).mpr hq,
    by simp only [Bool.and_eq_true, Bool.not_eq_true']; exact ⟨hk, by simpa using hc⟩⟩

/-- C5: after the pagination loop converges the reconciler prints a
removed-from-catalog warning for every imprint-table key absent from the
accumulated scraped set, a removed-from-catalog warning for every member of
the known-non-imprint publisher set absent from the accumulated set, a
new-publisher warning for every accumulated name absent from both internal
tables, and prints the in-sync summary line if and only if all three diffs
are empty. -/
theorem reconciler_diff_report :
    ∀ scraped : List String,
      (∀ k, k ∈ imprint_map.map Prod.fst → scraped.contains k = false →
        ("Not in ComicVine: " ++ k) ∈ diffLines scraped) ∧
      (∀ q, q ∈ other_publishers → scraped.contains q = false →
        ("Not in ComicVine: " ++ q) ∈ diffLines scraped) ∧
      (∀ q, q ∈ scraped → dictHasKey imprint_map q = false →
        other_publishers.contains q = false →
        ("Not in module: " ++ q) ∈ diffLines scraped) ∧
      ("Nothing to update!" ∈ diffLines scraped ↔
        (∀ k ∈ imprint_map.map Prod.fst, scraped.contains k = true) ∧
        (∀ q ∈ other_publishers, scraped.contains q = true) ∧
        (∀ q ∈ scraped,
          dictHasKey imprint_map q = true ∨ other_publishers.contains q = true)) := by
  intro scraped
  refine ⟨fun k hk hc => ?_, fun q hq hc => ?_, fun q hq hk hc => ?_, ?_, ?_⟩
  · rw [diffLines_eq]
    exact List.mem_append_left _ (List.mem_append_left _
      (List.mem_append_left _ (mem_goneImprintLines scraped k hk hc)))
  · rw [diffLines_eq]
    exact List.mem_append_left _ (List.mem_append_left _
      (List.mem_append_right _ (mem_goneOtherLines scraped q hq hc)))
  · rw [diffLines_eq]
    exact List.mem_append_left _
      (List.mem_append_right _ (mem_newPublisherLines scraped q hq hk hc))
  · intro hmem
    rw [diffLines_eq] at hmem
    rcases List.mem_append.mp hmem with hmem' | htail
    · rcases List.mem_append.mp hmem' with hmem'' | h3
      · rcases List.mem_append.mp hmem'' with h1 | h2
        · obtain ⟨k, _, habs⟩ := List.mem_map.mp h1
          exact absurd habs (append_ne_summary_cv k)
        · obtain ⟨q, _, habs⟩ := List.mem_map.mp h2
          exact absurd habs (append_ne_summary_cv q)
      · obtain ⟨q, _, habs⟩ := List.mem_map.mp h3
        exact absurd habs (append_ne_summary_mod q)
    · by_cases hcond : goneImprintLines scraped = [] ∧ goneOtherLines scraped = []
          ∧ newPublisherLines scraped = []
      · exact ⟨(goneImprintLines_nil_iff scraped).mp hcond.1,
          (goneOtherLines_nil_iff scraped).mp hcond.2.1,
          (newPublisherLines_nil_iff scraped).mp hcond.2.2⟩
      · rw [if_neg hcond] at htail
        cases htail
  · intro ⟨h1, h2, h3⟩
    rw [diffLines_eq, (goneImprintLines_nil_iff scraped).mpr h1,
      (goneOtherLines_nil_iff scraped).mpr h2,
      (newPublisherLines_nil_iff scraped).mpr h3]
    simp

/-- Witness for C5: with an empty accumulated set, the first imprint key is
reported as removed from the catalog. -/
theorem reconciler_diff_report_witness :
    "2000AD" ∈ imprint_map.map Prod.fst ∧ (List.contains [] "2000AD") = false ∧
    ("Not in ComicVine: " ++ "2000AD") ∈ diffLines [] :=
  ⟨by decide, by decide, (reconciler_diff_report []).1 "2000AD" (by decide) (by decide)⟩

theorem ltChars_trans : ∀ l1 l2 l3 : List Char,
    ltChars l1 l2 = true → ltChars l2 l3 = true → ltChars l1 l3 = true := by
  intro l1
  induction l1 with
  | nil =>
    intro l2 l3 h12 h23
    cases l3 with
    | nil =>
      cases l2 with
      | nil => exact h23
      | cons b bs => rw [ltChars] at h23; cases h23
    | cons c cs => rw [ltChars]
  | cons a as ih =>
    intro l2 l3 h12 h23
    cases l2 with
    | nil => rw [ltChars] at h12; cases h12
    | cons b bs =>
      cases l3 with
      | nil => rw [ltChars] at h23; cases h23
      | cons c cs =>
        rw [ltChars] at h12 h23 ⊢
        by_cases hab : a < b
        · by_cases hbc : b < c
          · rw [if_pos (lt_trans hab hbc)]
          · by_cases hcb : c < b
            · rw [if_neg hbc, if_pos hcb] at h23; cases h23
            · have hbc' : b = c := le_antisymm (not_lt.mp hcb) (not_lt.mp hbc)
              rw [if_pos (hbc' ▸ hab)]
        · by_cases hba : b < a
          · rw [if_neg hab, if_pos hba] at h12; cases h12
          · have hab' : a = b := le_antisymm (not_lt.mp hba) (not_lt.mp hab)
            rw [if_neg hab, if_neg hba] at h12
            by_cases hbc : b < c
            · rw [if_pos (show a < c from hab' ▸ hbc)]
            · by_cases hcb : c < b
              · rw [if_neg hbc, if_pos hcb] at h23; cases h23
              · have hbc' : b = c := le_antisymm (not_lt.mp hcb) (not_lt.mp hbc)
                rw [if_neg hbc, if_neg hcb] at h23
                have hac : a = c := hab'.trans hbc'
                rw [if_neg (show ¬ a < c from hac ▸ lt_irrefl a),
                  if_neg (show ¬ c < a from hac ▸ lt_irrefl a)]
                exact ih bs cs h12 h23

theorem ltChars_irrefl : ∀ l : List Char, ltChars l l = false := by
  intro l
  induction l with
  | nil => rfl
  | cons a as ih => rw [ltChars, if_neg (lt_irrefl a), if_neg (lt_irrefl a)]; exact ih

theorem ltStr_trans (s t u : String) (h1 : ltStr s t = true) (h2 : ltStr t u = true) :
    ltStr s u = true :=
  ltChars_trans s.data t.data u.data h1 h2

theorem ltStr_irrefl (s : String) : ltStr s s = false := ltChars_irrefl s.data

theorem chainLtB_tail (a : String) (l : List String) (h : chainLtB (a :: l) = true) :
    chainLtB l = true := by
  cases l with
  | nil => rfl
  | cons b rest =>
    rw [chainLtB, Bool.and_eq_true] at h
    exact h.2

theorem chainLtB_take : ∀ (l : List String) (i : Nat),
    chainLtB l = true → chainLtB (l.take i) = true := by
  intro l
  induction l with
  | nil =>
    intro i h
    rw [List.take_nil]
    rfl
  | cons a l' ih =>
    intro i h
    cases i with
    | zero => rfl
    | succ j =>
      rw [List.take_succ_cons]
      cases l' with
      | nil =>
        cases j <;> rfl
      | cons b rest =>
        rw [chainLtB, Bool.and_eq_true] at h
        cases j with
        | zero => rfl
        | succ j' =>
          rw [List.take_succ_cons, chainLtB, Bool.and_eq_true]
          refine ⟨h.1, ?_⟩
          have htail := ih (j' + 1) h.2
          rwa [List.take_succ_cons] at htail

theorem chainLtB_drop : ∀ (l : List String) (i : Nat),
    chainLtB l = true → chainLtB (l.drop i) = true := by
  intro l
  induction l with
  | nil =>
    intro i h
    rw [List.drop_nil]
    rfl
  | cons a l' ih =>
    intro i h
    cases i with
    | zero => exact h
    | succ j =>
      rw [List.drop_succ_cons]
      exact ih j (chainLtB_tail a l' h)

theorem chain_head_lt_all : ∀ (l : List String) (b : String),
    chainLtB (b :: l) = true → ∀ x ∈ l, ltStr b x = true := by
  intro l
  induction l with
  | nil => intro b _ x hx; cases hx
  | cons c rest ih =>
    intro b h x hx
    rw [chainLtB, Bool.and_eq_true] at h
    rcases List.mem_cons.mp hx with rfl | hx'
    · exact h.1
    · exact ltStr_trans b c x h.1 (ih c h.2 x hx')

theorem chain_le_getLast : ∀ (l : List String) (a : String),
    chainLtB l = true → l.getLast? = some a → ∀ x ∈ l, x = a ∨ ltStr x a = true := by
  intro l
  induction l with
  | nil => intro a _ hl; simp at hl
  | cons y ys ih =>
    intro a h hl x hx
    cases ys with
    | nil =>
      have hya : y = a := by simpa using hl
      rcases List.mem_singleton.mp hx with rfl
      exact Or.inl hya
    | cons z zs =>
      have hl' : (z :: zs).getLast? = some a := by rwa [List.getLast?_cons_cons] at hl
      rw [chainLtB, Bool.and_eq_true] at h
      rcases List.mem_cons.mp hx with rfl | hx'
      · rcases ih a h.2 hl' z (List.mem_cons_self _ _) with rfl | hza
        · exact Or.inr h.1
        · exact Or.inr (ltStr_trans x z a h.1 hza)
      · exact ih a h.2 hl' x hx'

theorem not_mem_block (R : List String) (hch : chainLtB R = true) (k : String) (i : Nat)
    (hA : Option.all (fun a => ltStr a k) (R.take i).getLast? = true)
    (hB : Option.all (fun b => ltStr k b) (R.drop i).head? = true) :
    k ∉ R := by
  intro hmem
  rw [← List.take_append_drop i R] at hmem
  rcases List.mem_append.mp hmem with hT | hD
  · obtain ⟨a, ha⟩ : ∃ a, (R.take i).getLast? = some a := by
      cases hgl : (R.take i).getLast? with
      | some a => exact ⟨a, rfl⟩
      | none =>
        rw [List.getLast?_eq_none_iff] at hgl
        rw [hgl] at hT
        cases hT
    rw [ha] at hA
    have hak : ltStr a k = true := by simpa [Option.all] using hA
    have hch' := chainLtB_take R i hch
    rcases chain_le_getLast (R.take i) a hch' ha k hT with rfl | hka
    · rw [ltStr_irrefl] at hak
      cases hak
    · have hkk := ltStr_trans a k a hak hka
      rw [ltStr_irrefl] at hkk
      cases hkk
  · cases hd : R.drop i with
    | nil =>
      rw [hd] at hD
      cases hD
    | cons b rest =>
      rw [hd, List.head?_cons] at hB
      have hkb : ltStr k b = true := by simpa [Option.all] using hB
      have hch' : chainLtB (b :: rest) = true := by
        rw [← hd]
        exact chainLtB_drop R i hch
      rw [hd] at hD
      rcases List.mem_cons.mp hD with rfl | hD'
      · rw [ltStr_irrefl] at hkb
        cases hkb
      · have hbk := chain_head_lt_all rest b hch' k hD'
        have hkk := ltStr_trans k b k hkb hbk
        rw [ltStr_irrefl] at hkk
        cases hkk

theorem not_mem_of_contains_false (l : List String) (k : String)
    (h : l.contains k = false) : k ∉ l := by
  intro hm
  have h2 : l.elem k = true := List.elem_iff.mpr hm
  have h3 : l.contains k = true := h2
  rw [h] at h3
  cases h3

theorem op_split : other_publishers = opConsts ++ (opRun1 ++ opRun2) := by
  unfold opConsts opRun1 opRun2
  rw [List.take_append_drop, List.take_append_drop]

theorem chain_opRun1 : chainLtB opRun1 = true := by decide!

theorem chain_opRun2 : chainLtB opRun2 = true := by decide!
theorem pubMarvel_mem_op : pubMarvel ∈ other_publishers :=
  List.Mem.head _

theorem pubDc_mem_op : pubDc ∈ other_publishers :=
  List.Mem.tail _ (List.Mem.head _)

theorem pubDarkhorse_mem_op : pubDarkhorse ∈ other_publishers :=
  List.Mem.tail _ (List.Mem.tail _ (List.Mem.head _))

theorem pubMalibu_mem_op : pubMalibu ∈ other_publishers :=
  List.Mem.tail _ (List.Mem.tail _ (List.Mem.tail _ (List.Mem.head _)))

theorem pubAmryl_mem_op : pubAmryl ∈ other_publishers :=
  List.Mem.tail _ (List.Mem.tail _ (List.Mem.tail _ (List.Mem.tail _ (List.Mem.head _))))

theorem pubAvatar_mem_op : pubAvatar ∈ other_publishers :=
  List.Mem.tail _ (List.Mem.tail _ (List.Mem.tail _ (List.Mem.tail _ (List.Mem.tail _ (List.Mem.head _)))))

theorem pubWizard_mem_op : pubWizard ∈ other_publishers :=
  List.Mem.tail _ (List.Mem.tail _ (List.Mem.tail _ (List.Mem.tail _ (List.Mem.tail _ (List.Mem.tail _ (List.Mem.head _))))))

theorem pubTokyopop_mem_op : pubTokyopop ∈ other_publishers :=
  List.Mem.tail _ (List.Mem.tail _ (List.Mem.tail _ (List.Mem.tail _ (List.Mem.tail _ (List.Mem.tail _ (List.Mem.tail _ (List.Mem.head _)))))))

theorem pubDynamite_mem_op : pubDynamite ∈ other_publishers :=
  List.Mem.tail _ (List.Mem.tail _ (List.Mem.tail _ (List.Mem.tail _ (List.Mem.tail _ (List.Mem.tail _ (List.Mem.tail _ (List.Mem.tail _ (List.Mem.head _))))))))

theorem pubImage_mem_op : pubImage ∈ other_publishers :=
  List.Mem.tail _ (List.Mem.tail _ (List.Mem.tail _ (List.Mem.tail _ (List.Mem.tail _ (List.Mem.tail _ (List.Mem.tail _ (List.Mem.tail _ (List.Mem.tail _ (List.Mem.head _)))))))))

theorem pubHeroic_mem_op : pubHeroic ∈ other_publishers :=
  List.Mem.tail _ (List.Mem.tail _ (List.Mem.tail _ (List.Mem.tail _ (List.Mem.tail _ (List.Mem.tail _ (List.Mem.tail _ (List.Mem.tail _ (List.Mem.tail _ (List.Mem.tail _ (List.Mem.head _))))))))))

theorem pubPenguin_mem_op : pubPenguin ∈ other_publishers :=
  List.Mem.tail _ (List.Mem.tail _ (List.Mem.tail _ (List.Mem.tail _ (List.Mem.tail _ (List.Mem.tail _ (List.Mem.tail _ (List.Mem.tail _ (List.Mem.tail _ (List.Mem.tail _ (List.Mem.tail _ (List.Mem.head _)))))))))))

theorem pubHakusensha_mem_op : pubHakusensha ∈ other_publishers :=
  List.Mem.tail _ (List.Mem.tail _ (List.Mem.tail _ (List.Mem.tail _ (List.Mem.tail _ (List.Mem.tail _ (List.Mem.tail _ (List.Mem.tail _ (List.Mem.tail _ (List.Mem.tail _ (List.Mem.tail _ (List.Mem.tail _ (List.Mem.head _))))))))))))

theorem pubApe_mem_op : pubApe ∈ other_publishers :=
  List.Mem.tail _ (List.Mem.tail _ (List.Mem.tail _ (List.Mem.tail _ (List.Mem.tail _ (List.Mem.tail _ (List.Mem.tail _ (List.Mem.tail _ (List.Mem.tail _ (List.Mem.tail _ (List.Mem.tail _ (List.Mem.tail _ (List.Mem.tail _ (List.Mem.head _)))))))))))))

theorem pubNbm_mem_op : pubNbm ∈ other_publishers :=
  List.Mem.tail _ (List.Mem.tail _ (List.Mem.tail _ (List.Mem.tail _ (List.Mem.tail _ (List.Mem.tail _ (List.Mem.tail _ (List.Mem.tail _ (List.Mem.tail _ (List.Mem.tail _ (List.Mem.tail _ (List.Mem.tail _ (List.Mem.tail _ (List.Mem.tail _ (List.Mem.head _))))))))))))))

theorem pubRadio_mem_op : pubRadio ∈ other_publishers :=
  List.Mem.tail _ (List.Mem.tail _ (List.Mem.tail _ (List.Mem.tail _ (List.Mem.tail _ (List.Mem.tail _ (List.Mem.tail _ (List.Mem.tail _ (List.Mem.tail _ (List.Mem.tail _ (List.Mem.tail _ (List.Mem.tail _ (List.Mem.tail _ (List.Mem.tail _ (List.Mem.tail _ (List.Mem.head _)))))))))))))))

theorem pubSlg_mem_op : pubSlg ∈ other_publishers :=
  List.Mem.tail _ (List.Mem.tail _ (List.Mem.tail _ (List.Mem.tail _ (List.Mem.tail _ (List.Mem.tail _ (List.Mem.tail _ (List.Mem.tail _ (List.Mem.tail _ (List.Mem.tail _ (List.Mem.tail _ (List.Mem.tail _ (List.Mem.tail _ (List.Mem.tail _ (List.Mem.tail _ (List.Mem.tail _ (List.Mem.head _))))))))))))))))

theorem pubTokuma_mem_op : pubTokuma ∈ other_publishers :=
  List.Mem.tail _ (List.Mem.tail _ (List.Mem.tail _ (List.Mem.tail _ (List.Mem.tail _ (List.Mem.tail _ (List.Mem.tail _ (List.Mem.tail _ (List.Mem.tail _ (List.Mem.tail _ (List.Mem.tail _ (List.Mem.tail _ (List.Mem.tail _ (List.Mem.tail _ (List.Mem.tail _ (List.Mem.tail _ (List.Mem.tail _ (List.Mem.head _)))))))))))))))))

theorem notMemKey0 : "2000AD" ∉ other_publishers := by
  rw [op_split]
  intro hmem
  rcases List.mem_append.mp hmem with h1 | h23
  · exact not_mem_of_contains_false opConsts "2000AD" rfl h1
  · rcases List.mem_append.mp h23 with h2 | h3
    · exact not_mem_block opRun1 chain_opRun1 "2000AD" 6 rfl rfl h2
    · exact not_mem_block opRun2 chain_opRun2 "2000AD" 0 rfl rfl h3

theorem notMemKey1 : "Adventure" ∉ other_publishers := by
  rw [op_split]
  intro hmem
  rcases List.mem_append.mp hmem with h1 | h23
  · exact not_mem_of_contains_false opConsts "Adventure" rfl h1
  · rcases List.mem_append.mp h23 with h2 | h3
    · exact not_mem_block opRun1 chain_opRun1 "Adventure" 75 rfl rfl h2
    · exact not_mem_block opRun2 chain_opRun2 "Adventure" 0 rfl rfl h3

theorem notMemKey2 : "America\u0027s Best Comics" ∉ other_publishers := by
  rw [op_split]
  intro hmem
  rcases List.mem_append.mp hmem with h1 | h23
  · exact not_mem_of_contains_false opConsts "America\u0027s Best Comics" rfl h1
  · rcases List.mem_append.mp h23 with h2 | h3
    · exact not_mem_block opRun1 chain_opRun1 "America\u0027s Best Comics" 117 rfl rfl h2
    · exact not_mem_block opRun2 chain_opRun2 "America\u0027s Best Comics" 0 rfl rfl h3

theorem notMemKey3 : "Wildstorm" ∉ other_publishers := by
  rw [op_split]
  intro hmem
  rcases List.mem_append.mp hmem with h1 | h23
  · exact not_mem_of_contains_false opConsts "Wildstorm" rfl h1
  · rcases List.mem_append.mp h23 with h2 | h3
    · exact not_mem_block opRun1 chain_opRun1 "Wildstorm" 488 rfl rfl h2
    · exact not_mem_block opRun2 chain_opRun2 "Wildstorm" 761 rfl rfl h3

theorem notMemKey4 : "Antimatter" ∉ other_publishers := by
  rw [op_split]
  intro hmem
  rcases List.mem_append.mp hmem with h1 | h23
  · exact not_mem_of_contains_false opConsts "Antimatter" rfl h1
  · rcases List.mem_append.mp h23 with h2 | h3
    · exact not_mem_block opRun1 chain_opRun1 "Antimatter" 135 rfl rfl h2
    · exact not_mem_block opRun2 chain_opRun2 "Antimatter" 0 rfl rfl h3

theorem notMemKey5 : "Apparat" ∉ other_publishers := by
  rw [op_split]
  intro hmem
  rcases List.mem_append.mp hmem with h1 | h23
  · exact not_mem_of_contains_false opConsts "Apparat" rfl h1
  · rcases List.mem_append.mp h23 with h2 | h3
    · exact not_mem_block opRun1 chain_opRun1 "Apparat" 138 rfl rfl h2
    · exact not_mem_block opRun2 chain_opRun2 "Apparat" 0 rfl rfl h3

theorem notMemKey6 : "Black Bull" ∉ other_publishers := by
  rw [op_split]
  intro hmem
  rcases List.mem_append.mp hmem with h1 | h23
  · exact not_mem_of_contains_false opConsts "Black Bull" rfl h1
  · rcases List.mem_append.mp h23 with h2 | h3
    · exact not_mem_block opRun1 chain_opRun1 "Black Bull" 234 rfl rfl h2
    · exact not_mem_block opRun2 chain_opRun2 "Black Bull" 0 rfl rfl h3

theorem notMemKey7 : "Blu Manga" ∉ other_publishers := by
  rw [op_split]
  intro hmem
  rcases List.mem_append.mp hmem with h1 | h23
  · exact not_mem_of_contains_false opConsts "Blu Manga" rfl h1
  · rcases List.mem_append.mp h23 with h2 | h3
    · exact not_mem_block opRun1 chain_opRun1 "Blu Manga" 252 rfl rfl h2
    · exact not_mem_block opRun2 chain_opRun2 "Blu Manga" 0 rfl rfl h3

theorem notMemKey8 : "Chaos! Comics" ∉ other_publishers := by
  rw [op_split]
  intro hmem
  rcases List.mem_append.mp hmem with h1 | h23
  · exact not_mem_of_contains_false opConsts "Chaos! Comics" rfl h1
  · rcases List.mem_append.mp h23 with h2 | h3
    · exact not_mem_block opRun1 chain_opRun1 "Chaos! Comics" 334 rfl rfl h2
    · exact not_mem_block opRun2 chain_opRun2 "Chaos! Comics" 0 rfl rfl h3

theorem notMemKey9 : "Cliffhanger" ∉ other_publishers := by
  rw [op_split]
  intro hmem
  rcases List.mem_append.mp hmem with h1 | h23
  · exact not_mem_of_contains_false opConsts "Cliffhanger" rfl h1
  · rcases List.mem_append.mp h23 with h2 | h3
    · exact not_mem_block opRun1 chain_opRun1 "Cliffhanger" 348 rfl rfl h2
    · exact not_mem_block opRun2 chain_opRun2 "Cliffhanger" 0 rfl rfl h3

theorem notMemKey10 : "CMX" ∉ other_publishers := by
  rw [op_split]
  intro hmem
  rcases List.mem_append.mp hmem with h1 | h23
  · exact not_mem_of_contains_false opConsts "CMX" rfl h1
  · rcases List.mem_append.mp h23 with h2 | h3
    · exact not_mem_block opRun1 chain_opRun1 "CMX" 294 rfl rfl h2
    · exact not_mem_block opRun2 chain_opRun2 "CMX" 0 rfl rfl h3

theorem notMemKey11 : "Dark Horse Manga" ∉ other_publishers := by
  rw [op_split]
  intro hmem
  rcases List.mem_append.mp hmem with h1 | h23
  · exact not_mem_of_contains_false opConsts "Dark Horse Manga" rfl h1
  · rcases List.mem_append.mp h23 with h2 | h3
    · exact not_mem_block opRun1 chain_opRun1 "Dark Horse Manga" 418 rfl rfl h2
    · exact not_mem_block opRun2 chain_opRun2 "Dark Horse Manga" 0 rfl rfl h3

theorem notMemKey12 : "Desperado Publishing" ∉ other_publishers := by
  rw [op_split]
  intro hmem
  rcases List.mem_append.mp hmem with h1 | h23
  · exact not_mem_of_contains_false opConsts "Desperado Publishing" rfl h1
  · rcases List.mem_append.mp h23 with h2 | h3
    · exact not_mem_block opRun1 chain_opRun1 "Desperado Publishing" 437 rfl rfl h2
    · exact not_mem_block opRun2 chain_opRun2 "Desperado Publishing" 0 rfl rfl h3

theorem notMemKey13 : "Epic" ∉ other_publishers := by
  rw [op_split]
  intro hmem
  rcases List.mem_append.mp hmem with h1 | h23
  · exact not_mem_of_contains_false opConsts "Epic" rfl h1
  · rcases List.mem_append.mp h23 with h2 | h3
    · exact not_mem_block opRun1 chain_opRun1 "Epic" 488 rfl rfl h2
    · exact not_mem_block opRun2 chain_opRun2 "Epic" 47 rfl rfl h3

theorem notMemKey14 : "Focus" ∉ other_publishers := by
  rw [op_split]
  intro hmem
  rcases List.mem_append.mp hmem with h1 | h23
  · exact not_mem_of_contains_false opConsts "Focus" rfl h1
  · rcases List.mem_append.mp h23 with h2 | h3
    · exact not_mem_block opRun1 chain_opRun1 "Focus" 488 rfl rfl h2
    · exact not_mem_block opRun2 chain_opRun2 "Focus" 98 rfl rfl h3

theorem notMemKey15 : "Helix" ∉ other_publishers := by
  rw [op_split]
  intro hmem
  rcases List.mem_append.mp hmem with h1 | h23
  · exact not_mem_of_contains_false opConsts "Helix" rfl h1
  · rcases List.mem_append.mp h23 with h2 | h3
    · exact not_mem_block opRun1 chain_opRun1 "Helix" 488 rfl rfl h2
    · exact not_mem_block opRun2 chain_opRun2 "Helix" 201 rfl rfl h3

theorem notMemKey16 : "Hero Comics" ∉ other_publishers := by
  rw [op_split]
  intro hmem
  rcases List.mem_append.mp hmem with h1 | h23
  · exact not_mem_of_contains_false opConsts "Hero Comics" rfl h1
  · rcases List.mem_append.mp h23 with h2 | h3
    · exact not_mem_block opRun1 chain_opRun1 "Hero Comics" 488 rfl rfl h2
    · exact not_mem_block opRun2 chain_opRun2 "Hero Comics" 204 rfl rfl h3

theorem notMemKey17 : "Homage comics" ∉ other_publishers := by
  rw [op_split]
  intro hmem
  rcases List.mem_append.mp hmem with h1 | h23
  · exact not_mem_of_contains_false opConsts "Homage comics" rfl h1
  · rcases List.mem_append.mp h23 with h2 | h3
    · exact not_mem_block opRun1 chain_opRun1 "Homage comics" 488 rfl rfl h2
    · exact not_mem_block opRun2 chain_opRun2 "Homage comics" 215 rfl rfl h3

theorem notMemKey18 : "Hudson Street Press" ∉ other_publishers := by
  rw [op_split]
  intro hmem
  rcases List.mem_append.mp hmem with h1 | h23
  · exact not_mem_of_contains_false opConsts "Hudson Street Press" rfl h1
  · rcases List.mem_append.mp h23 with h2 | h3
    · exact not_mem_block opRun1 chain_opRun1 "Hudson Street Press" 488 rfl rfl h2
    · exact not_mem_block opRun2 chain_opRun2 "Hudson Street Press" 218 rfl rfl h3

theorem notMemKey19 : "Icon Comics" ∉ other_publishers := by
  rw [op_split]
  intro hmem
  rcases List.mem_append.mp hmem with h1 | h23
  · exact not_mem_of_contains_false opConsts "Icon Comics" rfl h1
  · rcases List.mem_append.mp h23 with h2 | h3
    · exact not_mem_block opRun1 chain_opRun1 "Icon Comics" 488 rfl rfl h2
    · exact not_mem_block opRun2 chain_opRun2 "Icon Comics" 231 rfl rfl h3

theorem notMemKey20 : "Impact" ∉ other_publishers := by
  rw [op_split]
  intro hmem
  rcases List.mem_append.mp hmem with h1 | h23
  · exact not_mem_of_contains_false opConsts "Impact" rfl h1
  · rcases List.mem_append.mp h23 with h2 | h3
    · exact not_mem_block opRun1 chain_opRun1 "Impact" 488 rfl rfl h2
    · exact not_mem_block opRun2 chain_opRun2 "Impact" 236 rfl rfl h3

theorem notMemKey21 : "Jets Comics" ∉ other_publishers := by
  rw [op_split]
  intro hmem
  rcases List.mem_append.mp hmem with h1 | h23
  · exact not_mem_of_contains_false opConsts "Jets Comics" rfl h1
  · rcases List.mem_append.mp h23 with h2 | h3
    · exact not_mem_block opRun1 chain_opRun1 "Jets Comics" 488 rfl rfl h2
    · exact not_mem_block opRun2 chain_opRun2 "Jets Comics" 255 rfl rfl h3

theorem notMemKey22 : "KiZoic" ∉ other_publishers := by
  rw [op_split]
  intro hmem
  rcases List.mem_append.mp hmem with h1 | h23
  · exact not_mem_of_contains_false opConsts "KiZoic" rfl h1
  · rcases List.mem_append.mp h23 with h2 | h3
    · exact not_mem_block opRun1 chain_opRun1 "KiZoic" 488 rfl rfl h2
    · exact not_mem_block opRun2 chain_opRun2 "KiZoic" 273 rfl rfl h3

theorem notMemKey23 : "Marvel Digital Comics Unlimited" ∉ other_publishers := by
  rw [op_split]
  intro hmem
  rcases List.mem_append.mp hmem with h1 | h23
  · exact not_mem_of_contains_false opConsts "Marvel Digital Comics Unlimited" rfl h1
  · rcases List.mem_append.mp h23 with h2 | h3
    · exact not_mem_block opRun1 chain_opRun1 "Marvel Digital Comics Unlimited" 488 rfl rfl h2
    · exact not_mem_block opRun2 chain_opRun2 "Marvel Digital Comics Unlimited" 350 rfl rfl h3

theorem notMemKey24 : "Marvel Knights" ∉ other_publishers := by
  rw [op_split]
  intro hmem
  rcases List.mem_append.mp hmem with h1 | h23
  · exact not_mem_of_contains_false opConsts "Marvel Knights" rfl h1
  · rcases List.mem_append.mp h23 with h2 | h3
    · exact not_mem_block opRun1 chain_opRun1 "Marvel Knights" 488 rfl rfl h2
    · exact not_mem_block opRun2 chain_opRun2 "Marvel Knights" 350 rfl rfl h3

theorem notMemKey25 : "Marvel Music" ∉ other_publishers := by
  rw [op_split]
  intro hmem
  rcases List.mem_append.mp hmem with h1 | h23
  · exact not_mem_of_contains_false opConsts "Marvel Music" rfl h1
  · rcases List.mem_append.mp h23 with h2 | h3
    · exact not_mem_block opRun1 chain_opRun1 "Marvel Music" 488 rfl rfl h2
    · exact not_mem_block opRun2 chain_opRun2 "Marvel Music" 350 rfl rfl h3

theorem notMemKey26 : "Max" ∉ other_publishers := by
  rw [op_split]
  intro hmem
  rcases List.mem_append.mp hmem with h1 | h23
  · exact not_mem_of_contains_false opConsts "Max" rfl h1
  · rcases List.mem_append.mp h23 with h2 | h3
    · exact not_mem_block opRun1 chain_opRun1 "Max" 488 rfl rfl h2
    · exact not_mem_block opRun2 chain_opRun2 "Max" 350 rfl rfl h3

theorem notMemKey27 : "Milestone" ∉ other_publishers := by
  rw [op_split]
  intro hmem
  rcases List.mem_append.mp hmem with h1 | h23
  · exact not_mem_of_contains_false opConsts "Milestone" rfl h1
  · rcases List.mem_append.mp h23 with h2 | h3
    · exact not_mem_block opRun1 chain_opRun1 "Milestone" 488 rfl rfl h2
    · exact not_mem_block opRun2 chain_opRun2 "Milestone" 366 rfl rfl h3

theorem notMemKey28 : "Minx" ∉ other_publishers := by
  rw [op_split]
  intro hmem
  rcases List.mem_append.mp hmem with h1 | h23
  · exact not_mem_of_contains_false opConsts "Minx" rfl h1
  · rcases List.mem_append.mp h23 with h2 | h3
    · exact not_mem_block opRun1 chain_opRun1 "Minx" 488 rfl rfl h2
    · exact not_mem_block opRun2 chain_opRun2 "Minx" 370 rfl rfl h3

theorem notMemKey29 : "Papercutz" ∉ other_publishers := by
  rw [op_split]
  intro hmem
  rcases List.mem_append.mp hmem with h1 | h23
  · exact not_mem_of_contains_false opConsts "Papercutz" rfl h1
  · rcases List.mem_append.mp h23 with h2 | h3
    · exact not_mem_block opRun1 chain_opRun1 "Papercutz" 488 rfl rfl h2
    · exact not_mem_block opRun2 chain_opRun2 "Papercutz" 452 rfl rfl h3

theorem notMemKey30 : "Paradox Press" ∉ other_publishers := by
  rw [op_split]
  intro hmem
  rcases List.mem_append.mp hmem with h1 | h23
  · exact not_mem_of_contains_false opConsts "Paradox Press" rfl h1
  · rcases List.mem_append.mp h23 with h2 | h3
    · exact not_mem_block opRun1 chain_opRun1 "Paradox Press" 488 rfl rfl h2
    · exact not_mem_block opRun2 chain_opRun2 "Paradox Press" 454 rfl rfl h3

theorem notMemKey31 : "Piranha Press" ∉ other_publishers := by
  rw [op_split]
  intro hmem
  rcases List.mem_append.mp hmem with h1 | h23
  · exact not_mem_of_contains_false opConsts "Piranha Press" rfl h1
  · rcases List.mem_append.mp h23 with h2 | h3
    · exact not_mem_block opRun1 chain_opRun1 "Piranha Press" 488 rfl rfl h2
    · exact not_mem_block opRun2 chain_opRun2 "Piranha Press" 472 rfl rfl h3

theorem notMemKey32 : "Razorline" ∉ other_publishers := by
  rw [op_split]
  intro hmem
  rcases List.mem_append.mp hmem with h1 | h23
  · exact not_mem_of_contains_false opConsts "Razorline" rfl h1
  · rcases List.mem_append.mp h23 with h2 | h3
    · exact not_mem_block opRun1 chain_opRun1 "Razorline" 488 rfl rfl h2
    · exact not_mem_block opRun2 chain_opRun2 "Razorline" 521 rfl rfl h3

theorem notMemKey33 : "ShadowLine" ∉ other_publishers := by
  rw [op_split]
  intro hmem
  rcases List.mem_append.mp hmem with h1 | h23
  · exact not_mem_of_contains_false opConsts "ShadowLine" rfl h1
  · rcases List.mem_append.mp h23 with h2 | h3
    · exact not_mem_block opRun1 chain_opRun1 "ShadowLine" 488 rfl rfl h2
    · exact not_mem_block opRun2 chain_opRun2 "ShadowLine" 581 rfl rfl h3

theorem notMemKey34 : "Sin Factory Comix" ∉ other_publishers := by
  rw [op_split]
  intro hmem
  rcases List.mem_append.mp hmem with h1 | h23
  · exact not_mem_of_contains_false opConsts "Sin Factory Comix" rfl h1
  · rcases List.mem_append.mp h23 with h2 | h3
    · exact not_mem_block opRun1 chain_opRun1 "Sin Factory Comix" 488 rfl rfl h2
    · exact not_mem_block opRun2 chain_opRun2 "Sin Factory Comix" 596 rfl rfl h3

theorem notMemKey35 : "Slave Labor" ∉ other_publishers := by
  rw [op_split]
  intro hmem
  rcases List.mem_append.mp hmem with h1 | h23
  · exact not_mem_of_contains_false opConsts "Slave Labor" rfl h1
  · rcases List.mem_append.mp h23 with h2 | h3
    · exact not_mem_block opRun1 chain_opRun1 "Slave Labor" 488 rfl rfl h2
    · exact not_mem_block opRun2 chain_opRun2 "Slave Labor" 600 rfl rfl h3

theorem notMemKey36 : "Soleil" ∉ other_publishers := by
  rw [op_split]
  intro hmem
  rcases List.mem_append.mp hmem with h1 | h23
  · exact not_mem_of_contains_false opConsts "Soleil" rfl h1
  · rcases List.mem_append.mp h23 with h2 | h3
    · exact not_mem_block opRun1 chain_opRun1 "Soleil" 488 rfl rfl h2
    · exact not_mem_block opRun2 chain_opRun2 "Soleil" 604 rfl rfl h3

theorem notMemKey37 : "Tangent Comics" ∉ other_publishers := by
  rw [op_split]
  intro hmem
  rcases List.mem_append.mp hmem with h1 | h23
  · exact not_mem_of_contains_false opConsts "Tangent Comics" rfl h1
  · rcases List.mem_append.mp h23 with h2 | h3
    · exact not_mem_block opRun1 chain_opRun1 "Tangent Comics" 488 rfl rfl h2
    · exact not_mem_block opRun2 chain_opRun2 "Tangent Comics" 654 rfl rfl h3

theorem notMemKey38 : "Tokuma Comics" ∉ other_publishers := by
  rw [op_split]
  intro hmem
  rcases List.mem_append.mp hmem with h1 | h23
  · exact not_mem_of_contains_false opConsts "Tokuma Comics" rfl h1
  · rcases List.mem_append.mp h23 with h2 | h3
    · exact not_mem_block opRun1 chain_opRun1 "Tokuma Comics" 488 rfl rfl h2
    · exact not_mem_block opRun2 chain_opRun2 "Tokuma Comics" 681 rfl rfl h3

theorem notMemKey39 : "Ultraverse" ∉ other_publishers := by
  rw [op_split]
  intro hmem
  rcases List.mem_append.mp hmem with h1 | h23
  · exact not_mem_of_contains_false opConsts "Ultraverse" rfl h1
  · rcases List.mem_append.mp h23 with h2 | h3
    · exact not_mem_block opRun1 chain_opRun1 "Ultraverse" 488 rfl rfl h2
    · exact not_mem_block opRun2 chain_opRun2 "Ultraverse" 714 rfl rfl h3

theorem notMemKey40 : "Vertigo" ∉ other_publishers := by
  rw [op_split]
  intro hmem
  rcases List.mem_append.mp hmem with h1 | h23
  · exact not_mem_of_contains_false opConsts "Vertigo" rfl h1
  · rcases List.mem_append.mp h23 with h2 | h3
    · exact not_mem_block opRun1 chain_opRun1 "Vertigo" 488 rfl rfl h2
    · exact not_mem_block opRun2 chain_opRun2 "Vertigo" 727 rfl rfl h3

theorem notMemKey41 : "Zuda Comics" ∉ other_publishers := by
  rw [op_split]
  intro hmem
  rcases List.mem_append.mp hmem with h1 | h23
  · exact not_mem_of_contains_false opConsts "Zuda Comics" rfl h1
  · rcases List.mem_append.mp h23 with h2 | h3
    · exact not_mem_block opRun1 chain_opRun1 "Zuda Comics" 488 rfl rfl h2
    · exact not_mem_block opRun2 chain_opRun2 "Zuda Comics" 781 rfl rfl h3

/-- C6: every value occurring in the imprint table (every parent publisher
name) is also a member of the known-non-imprint publisher set, for all
entries of the static tables as defined in the source. -/
theorem imprint_values_in_other_publishers :
    ∀ p ∈ imprint_map, p.2 ∈ other_publishers := by
  intro p hp
  simp only [imprint_map, List.mem_cons] at hp
  rcases hp with rfl | rfl | rfl | rfl | rfl | rfl | rfl | rfl | rfl | rfl | rfl | rfl | rfl | rfl | rfl | rfl | rfl | rfl | rfl | rfl | rfl | rfl | rfl | rfl | rfl | rfl | rfl | rfl | rfl | rfl | rfl | rfl | rfl | rfl | rfl | rfl | rfl | rfl | rfl | rfl | rfl | rfl | hnil
  exacts [pubDc_mem_op, pubMalibu_mem_op, pubDc_mem_op, pubDc_mem_op, pubAmryl_mem_op, pubAvatar_mem_op, pubWizard_mem_op, pubTokyopop_mem_op, pubDynamite_mem_op, pubDc_mem_op, pubDc_mem_op, pubDarkhorse_mem_op, pubImage_mem_op, pubMarvel_mem_op, pubDc_mem_op, pubDc_mem_op, pubHeroic_mem_op, pubDc_mem_op, pubPenguin_mem_op, pubMarvel_mem_op, pubDc_mem_op, pubHakusensha_mem_op, pubApe_mem_op, pubMarvel_mem_op, pubMarvel_mem_op, pubMarvel_mem_op, pubMarvel_mem_op, pubDc_mem_op, pubDc_mem_op, pubNbm_mem_op, pubDc_mem_op, pubDc_mem_op, pubMarvel_mem_op, pubImage_mem_op, pubRadio_mem_op, pubSlg_mem_op, pubMarvel_mem_op, pubDc_mem_op, pubTokuma_mem_op, pubMalibu_mem_op, pubDc_mem_op, pubDc_mem_op, absurd hnil (List.not_mem_nil p)]

/-- Witness for C6 at the concrete entry `("2000AD", "DC Comics")`. -/
theorem imprint_values_in_other_publishers_witness :
    ("2000AD", pubDc) ∈ imprint_map ∧ pubDc ∈ other_publishers :=
  ⟨by decide, imprint_values_in_other_publishers ("2000AD", pubDc) (by decide)⟩

/-- C7: the keys of the imprint table and the known-non-imprint publisher
set are disjoint: no name string appears both as an imprint-table key and as
a member of the non-imprint publisher set, for the static tables as defined
in the source. -/
theorem imprint_keys_disjoint_other_publishers :
    ∀ p ∈ imprint_map, p.1 ∉ other_publishers := by
  intro p hp
  simp only [imprint_map, List.mem_cons] at hp
  rcases hp with rfl | rfl | rfl | rfl | rfl | rfl | rfl | rfl | rfl | rfl | rfl | rfl | rfl | rfl | rfl | rfl | rfl | rfl | rfl | rfl | rfl | rfl | rfl | rfl | rfl | rfl | rfl | rfl | rfl | rfl | rfl | rfl | rfl | rfl | rfl | rfl | rfl | rfl | rfl | rfl | rfl | rfl | hnil
  exacts [notMemKey0, notMemKey1, notMemKey2, notMemKey3, notMemKey4, notMemKey5, notMemKey6, notMemKey7, notMemKey8, notMemKey9, notMemKey10, notMemKey11, notMemKey12, notMemKey13, notMemKey14, notMemKey15, notMemKey16, notMemKey17, notMemKey18, notMemKey19, notMemKey20, notMemKey21, notMemKey22, notMemKey23, notMemKey24, notMemKey25, notMemKey26, notMemKey27, notMemKey28, notMemKey29, notMemKey30, notMemKey31, notMemKey32, notMemKey33, notMemKey34, notMemKey35, notMemKey36, notMemKey37, notMemKey38, notMemKey39, notMemKey40, notMemKey41, absurd hnil (List.not_mem_nil p)]

/-- Witness for C7 at the concrete entry `("Vertigo", "DC Comics")`. -/
theorem imprint_keys_disjoint_other_publishers_witness :
    ("Vertigo", pubDc) ∈ imprint_map ∧ "Vertigo" ∉ other_publishers :=
  ⟨by decide, imprint_keys_disjoint_other_publishers ("Vertigo", pubDc) (by decide)⟩
